import Mathlib

/-!
# Lucent run-pipeline: shallow embedding of `src/server.js`

This file embeds the Express handlers of `src/server.js` (the run
orchestrator of the Lucent price-prediction service) as pure Lean
functions and proves properties of the frozen specification claims
against them.

Modelling conventions:
* Each Express handler becomes a pure function from the request, the
  shared mutable state (`progressStore`, the transient file areas) and
  an oracle (`World`) for the external Python collaborators, to a
  result record holding the HTTP response, the final state, and the
  ordered trace of externally visible events.
* JavaScript values that the code inspects only for truthiness or
  (strict) equality are modelled by `JVal`; JSON numbers become `Rat`.
* `progressStore` is a map `String → Option Progress`; assignment and
  `delete` are pointwise updates.
* Since the server is single-threaded, a concurrent `GET
  /api/progress` request can only run while the handler is suspended
  in an `await`.  Each external-call event therefore carries the
  progress snapshot stored for the run at the moment of the call:
  these are exactly the snapshots observable by a poll during that
  call.  Store writes that are overwritten before the next suspension
  point are kept in the definitions (faithful to the code) but are
  not observable.
-/

/-- Outcome of awaiting one `runPythonJson` / `runPython` promise:
either it resolves with a parsed value or it rejects with an error
message (which the handler's `catch` receives). -/
inductive PyOutcome (α : Type) where
  | ok (a : α) : PyOutcome α
  | error (msg : String) : PyOutcome α
deriving DecidableEq, Repr

/-- A JavaScript value as far as the handler inspects it: `undefined`,
`null`, a number, a string, or a boolean.  JSON numbers are modelled
as rationals. -/
inductive JVal where
  | jundef : JVal
  | jnull : JVal
  | jnum (q : Rat) : JVal
  | jstr (s : String) : JVal
  | jbool (b : Bool) : JVal
deriving DecidableEq, Repr

/-- JavaScript truthiness of a `JVal` (NaN is not representable in
this model; the handlers never produce it). -/
def JVal.truthy : JVal → Bool
  | .jundef => false
  | .jnull => false
  | .jnum q => q != 0
  | .jstr s => s != ""
  | .jbool b => b

/-- One snapshot stored in `progressStore[runId]`:
`{ status, step, total, message }`. -/
structure Progress where
  status : String
  step : Nat
  total : Nat
  message : String
deriving DecidableEq, Repr

/-- The `progressStore` object: run identifier to current snapshot. -/
def Store := String → Option Progress

/-- `progressStore[k] = p`. -/
def Store.set (s : Store) (k : String) (p : Progress) : Store :=
  fun k' => if k' = k then some p else s k'

/-- `delete progressStore[k]`. -/
def Store.del (s : Store) (k : String) : Store :=
  fun k' => if k' = k then none else s k'

/-- The store with no entries. -/
def Store.empty : Store := fun _ => none

/-- The transient artifact areas: the names in `RAW_DIR` and the
directory names in `PROCESSED_DIR`. -/
structure FS where
  rawFiles : List String
  processedDirs : List String
deriving DecidableEq, Repr

/-- `fs.mkdirSync(runDir, { recursive: true })`: registers the run's
working directory under `PROCESSED_DIR` (no-op when present). -/
def FS.mkRunDir (fs : FS) (runId : String) : FS :=
  if runId ∈ fs.processedDirs then fs
  else { fs with processedDirs := runId :: fs.processedDirs }

/-- Parsed JSON of one collector (`carousell.scrape_cli`) call:
the fields the handler reads.  `none` models an absent key. -/
structure ScrapeData where
  query_url : Option String
  screenshot_path : Option String
  csv_path : Option String
deriving DecidableEq, Repr

/-- Parsed JSON of a `merge_csvs.py` call. -/
structure MergeData where
  csv_path : Option String
deriving DecidableEq, Repr

/-- Parsed JSON of a weighting call (`heuristic_score.py` or
`csv_score.py`). -/
structure WeightData where
  csv_path : Option String
deriving DecidableEq, Repr

/-- Parsed JSON of a predictor call: the fields read at lines 476-491
of `server.js`.  A missing key is `JVal.jundef`. -/
structure Prediction where
  predicted_price : JVal
  data_points : JVal
  target_days : JVal
  model_accuracy_mae : JVal
  price_stats : JVal
  time_stats : JVal
deriving DecidableEq, Repr

/-- The body of `POST /api/run` as the handler destructures it
(line 146, plus `req.body.price_predictor` at line 427).  Each field
is `none` when absent.  Numeric fields are modelled by their string
image since the handler only ever applies `String(...)` to them. -/
structure Request where
  item : Option String
  brand : Option String
  model : Option String
  notes : Option String
  condition : Option String
  min_price : Option String
  target_days : Option String
  speed_mode : Option String
  weighting_method : Option String
  price_predictor : Option String
deriving DecidableEq, Repr

/-- Oracle for everything outside the Node process: the outcome of
each external call and of each file-system probe, plus which cleanup
deletions fail.  `credentialPresent` records whether the external
scoring credential is configured in the environment. -/
structure World where
  scrape : Nat → PyOutcome ScrapeData
  renameOk : Nat → Bool
  mergeResult : PyOutcome MergeData
  heuristicResult : PyOutcome WeightData
  aiResult : PyOutcome WeightData
  predictResult : PyOutcome Prediction
  existsSync : String → Bool
  unlinkFails : String → Bool
  rmFails : String → Bool
  readRawFails : Bool
  readProcessedFails : Bool
  credentialPresent : Bool

/-- Externally visible events of one `/api/run` execution, in program
order.  External-call events carry the progress snapshot stored for
the run while the handler awaits that call. -/
inductive Event where
  | mkRunDirEv (runId : String) : Event
  | scrapeCall (sort : String) (snap : Progress) : Event
  | mergeCall (snap : Progress) : Event
  | weightCall (method : String) (snap : Progress) : Event
  | predictCall (script : String) (targetDays : String) (snap : Progress) : Event
  | recordDeleted (runId : String) : Event
  | artifactSweep : Event
deriving DecidableEq, Repr

/-- Body of an HTTP JSON response from `/api/run`. -/
inductive RespBody where
  | okRun (predicted_price : JVal) (target_days : JVal) (data_points : JVal)
      (model_accuracy : JVal) (price_stats : JVal) (time_stats : JVal)
      (run_id : String) : RespBody
  | errBody (msg : String) : RespBody
deriving DecidableEq, Repr

/-- An HTTP response: status code plus JSON body. -/
structure Response where
  status : Nat
  body : RespBody
deriving DecidableEq, Repr

/-- Result of one `/api/run` handler execution. -/
structure RunResult where
  response : Response
  store : Store
  fs : FS
  events : List Event

/-- JavaScript `!x` for an optional string (`undefined` and `""` are
falsy). -/
def strFalsy : Option String → Bool
  | none => true
  | some s => s == ""

/-- JavaScript `a || b` for optional strings. -/
def jsOrStr (a b : Option String) : Option String :=
  match a with
  | some s => if s == "" then b else some s
  | none => b

/-- JavaScript `String(x)` where `x` may be `undefined`. -/
def jsString : Option String → String
  | none => "undefined"
  | some s => s

/-- `path.basename` (POSIX): the component after the last slash. -/
def basename (p : String) : String :=
  ((p.splitOn "/").getLastD p)

/-- `name.endsWith(suffix)` over the character list (the standard
`String.endsWith` is not kernel-executable). -/
def strEndsWith (s suffix : String) : Bool :=
  suffix.data.isSuffixOf s.data

/-- `name.startsWith(front)` over the character list. -/
def strStartsWith (s front : String) : Bool :=
  front.data.isPrefixOf s.data

/-- `path.join(PROCESSED_DIR, runId)` with `PROCESSED_DIR` abstracted
to the name `processed`. -/
def runDirOf (runId : String) : String := "processed/" ++ runId

/-- The ordered sort variants of `server.js` line 266. -/
def sortOptions : List String := ["3", "4", "5", "6", "7"]

/-- The `switch (speed_mode)` of lines 270-282 (strict string
equality, anything else falls to the default case): the prefix of
`sortOptions` to scrape together with `totalPages`. -/
def speedSelection (speed_mode : Option String) : List String × Nat :=
  if speed_mode = some "ultra_fast" then (sortOptions.take 1, 1)
  else if speed_mode = some "fast" then (sortOptions.take 2, 2)
  else (sortOptions, 5)

/-- The constant `scraperMode` of line 148. -/
def scraperMode : String := "carousell"

/-- Modelled from the spec: the AI weighting collaborator
(`csv_score.py`, not part of the server sources) requires the external
scoring credential and its call is rejected when the credential is
absent; with the credential present it behaves as the oracle says.
Note that `server.js` itself never consults the credential. -/
def aiScoreCall (w : World) : PyOutcome WeightData :=
  if w.credentialPresent then w.aiResult
  else .error "external scoring credential absent"

/-- The progress snapshot written before the `i`-th scrape call
(lines 290-295). -/
def scrapingProgress (i total : Nat) : Progress :=
  ⟨"scraping", i + 1, total,
    "Scraping " ++ toString (i + 1) ++ " of " ++ toString total ++ "..."⟩

/-- Lines 310-320: when the collector returned a `csv_path`, move the
file into the run directory (`renameSync`); on failure fall back to
the original path; push the resulting path. -/
def collectCsv (w : World) (runId : String) (i : Nat) (csvs : List String)
    (d : ScrapeData) : List String :=
  match d.csv_path with
  | none => csvs
  | some src =>
    if w.renameOk i then csvs ++ [runDirOf runId ++ "/" ++ basename src]
    else csvs ++ [src]

/-- The scrape loop of lines 288-321: for each selected sort variant,
write the scraping snapshot, await the collector, and collect the
returned CSV path.  Returns the final store, the trace, and either
the collected CSV paths or the first rejection. -/
def scrapeLoop (w : World) (runId : String) (total : Nat) :
    List String → Nat → Store → List String →
    Store × List Event × PyOutcome (List String)
  | [], _, store, csvs => (store, [], .ok csvs)
  | sort :: rest, i, store, csvs =>
    let p := scrapingProgress i total
    let store := store.set runId p
    match w.scrape i with
    | .error e => (store, [.scrapeCall sort p], .error e)
    | .ok d =>
      let r := scrapeLoop w runId total rest (i + 1) store (collectCsv w runId i csvs d)
      (r.1, .scrapeCall sort p :: r.2.1, r.2.2)

/-- The merge step of lines 323-356: when the speed mode is
`ultra_fast` and exactly one CSV was produced, skip the merger and use
that CSV directly; otherwise await `merge_csvs.py` and use the
`csv_path` it returns. -/
def mergePhase (w : World) (speed_mode : Option String) (runId : String)
    (store : Store) (csvs : List String) :
    Store × List Event × PyOutcome (Option String) :=
  if speed_mode == some "ultra_fast" && csvs.length == 1 then
    let p : Progress := ⟨"merging", 1, 1, "Using single CSV file (ultra fast mode)..."⟩
    let store := store.set runId p
    (store, [], .ok csvs.head?)
  else
    let p : Progress := ⟨"merging", 1, 1, "Merging CSV files..."⟩
    let store := store.set runId p
    match w.mergeResult with
    | .error e => (store, [.mergeCall p], .error e)
    | .ok m => (store, [.mergeCall p], .ok m.csv_path)

/-- The weighting step of lines 358-403: heuristic scoring when
`weighting_method === 'heuristic'`, AI scoring otherwise. -/
def weightPhase (w : World) (weighting_method : Option String)
    (runId : String) (store : Store) :
    Store × List Event × PyOutcome (Option String) :=
  if weighting_method == some "heuristic" then
    let p : Progress := ⟨"weighting", 1, 1, "Applying heuristic weighting..."⟩
    let store := store.set runId p
    match w.heuristicResult with
    | .error e => (store, [.weightCall "heuristic" p], .error e)
    | .ok r => (store, [.weightCall "heuristic" p], .ok r.csv_path)
  else
    let p : Progress := ⟨"weighting", 1, 1, "Applying AI weighting (this may take a while)..."⟩
    let store := store.set runId p
    match aiScoreCall w with
    | .error e => (store, [.weightCall "ai" p], .error e)
    | .ok r => (store, [.weightCall "ai" p], .ok r.csv_path)

/-- The cleanup sweep of lines 446-473 (duplicated verbatim at lines
499-526): delete every name in `RAW_DIR` ending in `.html`, then
every directory in `PROCESSED_DIR` whose name starts with `run_`.
Both loops sit in one `try`: if listing `RAW_DIR` throws, nothing is
swept; if listing `PROCESSED_DIR` throws, only the raw files were
swept.  Per-entry deletion failures are ignored, keeping the entry. -/
def cleanupSweep (w : World) (fs : FS) : FS :=
  if w.readRawFails then fs
  else
    let raw := fs.rawFiles.filter
      (fun f => !(strEndsWith f ".html" && !w.unlinkFails f))
    if w.readProcessedFails then { fs with rawFiles := raw }
    else
      { rawFiles := raw,
        processedDirs := fs.processedDirs.filter
          (fun d => !(strStartsWith d "run_" && !w.rmFails d)) }

/-- The `catch` block of lines 494-528: delete the run's progress
record, run the cleanup sweep (failures swallowed), and answer 500
with the error message. -/
def catchPath (w : World) (runId : String) (store : Store) (fs : FS)
    (evs : List Event) (e : String) : RunResult :=
  { response := ⟨500, .errBody e⟩,
    store := store.del runId,
    fs := cleanupSweep w fs,
    events := evs ++ [.recordDeleted runId, .artifactSweep] }

/-- Response body of the missing-CSV early return (lines 420-423). -/
def csvNotFoundMsg : String :=
  "CSV file not found for price prediction. The weighting process may have failed."

/-- Response body of the invalid-prediction return (lines 478-481). -/
def noDataMsg : String :=
  "No data available for price prediction. Try adjusting your search criteria or check back later when more listings are available."

/-- The invalid-prediction test of line 476 (without the always-false
`!prediction` disjunct, since a resolved call yields an object):
`!prediction.predicted_price || prediction.data_points === 0 ||
prediction.data_points === "0"`. -/
def badPrediction (p : Prediction) : Bool :=
  !p.predicted_price.truthy || p.data_points == .jnum 0 || p.data_points == .jstr "0"

/-- The `predicting` snapshot written at lines 406-411. -/
def predictingProgress : Progress :=
  ⟨"predicting", 1, 1, "Running price prediction model..."⟩

/-- Lines 427-430: the predictor script chosen from
`req.body.price_predictor`. -/
def predictorScript (req : Request) : String :=
  if req.price_predictor == some "advanced" then "price_predictor.py"
  else "simple_price_predictor.py"

/-- Lines 414-418: `fs.existsSync(weightedCsvPath || combinedCsvPath)`
(`existsSync` on a non-string returns `false`). -/
def csvExistsFor (w : World) (weighted combined : Option String) : Bool :=
  match jsOrStr weighted combined with
  | none => false
  | some c => w.existsSync c

/-- Lines 405-493: the prediction stage and the success-path epilogue.
`weighted` and `combined` are the CSV paths produced by the weighting
and merge stages. -/
def predictPhase (w : World) (req : Request) (runId : String)
    (store : Store) (fs : FS) (evs : List Event)
    (weighted combined : Option String) : RunResult :=
  let store := store.set runId predictingProgress
  if !csvExistsFor w weighted combined then
    -- Early return at lines 420-423: no record deletion, no sweep.
    { response := ⟨200, .errBody csvNotFoundMsg⟩,
      store := store, fs := fs, events := evs }
  else
    let callEv := Event.predictCall (predictorScript req)
      (jsString req.target_days) predictingProgress
    match w.predictResult with
    | .error e => catchPath w runId store fs (evs ++ [callEv]) e
    | .ok pred =>
      let store := store.del runId          -- line 443
      let fs := cleanupSweep w fs           -- lines 445-473
      let evs := evs ++ [callEv, .recordDeleted runId, .artifactSweep]
      if badPrediction pred then
        { response := ⟨200, .errBody noDataMsg⟩,
          store := store, fs := fs, events := evs }
      else
        { response := ⟨200, .okRun pred.predicted_price pred.target_days
            pred.data_points pred.model_accuracy_mae pred.price_stats
            pred.time_stats runId⟩,
          store := store, fs := fs, events := evs }

/-- Continuation after the weighting stage (the tail of the `try`
block from line 405 on, or the `catch` when weighting rejected). -/
def afterWeight (w : World) (req : Request) (runId : String) (fs : FS)
    (evs : List Event) (combined : Option String)
    (wp : Store × List Event × PyOutcome (Option String)) : RunResult :=
  let evs := evs ++ wp.2.1
  match wp.2.2 with
  | .error e => catchPath w runId wp.1 fs evs e
  | .ok weighted => predictPhase w req runId wp.1 fs evs weighted combined

/-- Continuation after the merge stage (lines 358 on, or the `catch`
when merging rejected). -/
def afterMerge (w : World) (req : Request) (runId : String) (fs : FS)
    (evs : List Event)
    (m : Store × List Event × PyOutcome (Option String)) : RunResult :=
  let evs := evs ++ m.2.1
  match m.2.2 with
  | .error e => catchPath w runId m.1 fs evs e
  | .ok combined =>
    afterWeight w req runId fs evs combined
      (weightPhase w req.weighting_method runId m.1)

/-- Continuation after the scrape loop (lines 323 on, or the `catch`
when a collector call rejected). -/
def afterScrape (w : World) (req : Request) (runId : String) (fs : FS)
    (s : Store × List Event × PyOutcome (List String)) : RunResult :=
  let evs := Event.mkRunDirEv runId :: s.2.1
  match s.2.2 with
  | .error e => catchPath w runId s.1 fs evs e
  | .ok csvs => afterMerge w req runId fs evs (mergePhase w req.speed_mode runId s.1 csvs)

/-- `POST /api/run` (lines 145-530).  `now` is the value of
`Date.now()` at entry; the run identifier is derived from it at line
147 and the body's `run_id` field is never read. -/
def runHandler (w : World) (req : Request) (now : Nat)
    (store : Store) (fs : FS) : RunResult :=
  let runId := "run_" ++ toString now
  if strFalsy req.item then
    { response := ⟨400, .errBody "Item is required"⟩,
      store := store, fs := fs, events := [] }
  else
    let fs := fs.mkRunDir runId
    if scraperMode == "facebook" || scraperMode == "ebay" then
      -- Dead branch: line 166 reads `totalPages` before its
      -- declaration, so entering it would throw immediately.
      catchPath w runId store fs [.mkRunDirEv runId]
        "Cannot access totalPages before declaration"
    else
      let store := store.set runId ⟨"scraping", 0, 5, "Starting scrape..."⟩
      let pt := speedSelection req.speed_mode
      let store := store.set runId
        ⟨"scraping", 1, pt.2, "Scraping 1 of " ++ toString pt.2 ++ "..."⟩
      afterScrape w req runId fs (scrapeLoop w runId pt.2 pt.1 0 store [])

/-- `POST /api/start-run` (lines 138-142): allocate a run identifier
from `Date.now()`, insert the starting snapshot, and return the
identifier. -/
def startingProgress : Progress :=
  ⟨"starting", 0, 1, "Starting scraper..."⟩

def startRun (now : Nat) (store : Store) : String × Store :=
  let runId := "run_" ++ toString now
  (runId, store.set runId startingProgress)

/-- Reply of `GET /api/progress/:runId`. -/
inductive ProgressReply where
  | snapshot (p : Progress) : ProgressReply
  | completedSentinel : ProgressReply
deriving DecidableEq, Repr

/-- `GET /api/progress/:runId` (lines 533-540): the stored snapshot,
or `{status: 'completed', message: 'Process completed'}` when no
record exists. -/
def getProgress (store : Store) (runId : String) : ProgressReply :=
  match store runId with
  | none => .completedSentinel
  | some p => .snapshot p

/-! ## Event projections -/

/-- The sort variant of a collector-call event. -/
def Event.scrapeSort? : Event → Option String
  | .scrapeCall s _ => some s
  | _ => none

/-- The `total` field of the snapshot observable during a
collector-call event. -/
def Event.scrapeTotal? : Event → Option Nat
  | .scrapeCall _ p => some p.total
  | _ => none

/-- Is this event a collector call? -/
def Event.isScrape : Event → Bool
  | .scrapeCall _ _ => true
  | _ => false

/-- Is this event a merger call? -/
def Event.isMerge : Event → Bool
  | .mergeCall _ => true
  | _ => false

/-- Is this event part of cleanup (record deletion or artifact
sweep)? -/
def Event.isCleanup : Event → Bool
  | .recordDeleted _ => true
  | .artifactSweep => true
  | _ => false

/-! ## Concrete fixtures for witnesses and counterexamples -/

/-- A collector oracle that always succeeds and produces one CSV per
call. -/
def okScrape (i : Nat) : PyOutcome ScrapeData :=
  .ok ⟨some "http://example/query", some "shot.png",
    some ("raw/s" ++ toString i ++ ".csv")⟩

/-- A world where every external call succeeds and every file
exists. -/
def okWorld : World where
  scrape := okScrape
  renameOk := fun _ => true
  mergeResult := .ok ⟨some "processed/run_1/merged.csv"⟩
  heuristicResult := .ok ⟨some "processed/run_1/weighted.csv"⟩
  aiResult := .ok ⟨some "processed/run_1/weighted.csv"⟩
  predictResult := .ok ⟨.jnum 100, .jnum 5, .jnum 14, .jnum 2, .jnull, .jnull⟩
  existsSync := fun _ => true
  unlinkFails := fun _ => false
  rmFails := fun _ => false
  readRawFails := false
  readProcessedFails := false
  credentialPresent := true

/-- A request for an ultra-fast heuristic run. -/
def baseReq : Request :=
  ⟨some "baby chair", none, none, none, some "3", some "0",
    some "14", some "ultra_fast", some "heuristic", none⟩

/-- The empty artifact areas. -/
def emptyFS : FS := ⟨[], []⟩

/-- The missing-CSV early-return response. -/
def csvNotFoundResponse : Response := ⟨200, .errBody csvNotFoundMsg⟩

/-- Replace only the cleanup-failure oracles of a world. -/
def World.withCleanup (w : World) (u r : String → Bool) (a b : Bool) : World :=
  { w with unlinkFails := u, rmFails := r, readRawFails := a, readProcessedFails := b }

/-- Is this event a predictor call? -/
def Event.isPredict : Event → Bool
  | .predictCall _ _ _ => true
  | _ => false

/-! ## Spec-modelled Merger semantics

`utils/merge_csvs.py` is not part of the server sources; its
deduplication behaviour is modelled from the spec. -/

/-- Modelled from the spec: a listing as the Merger sees it — an
identifier derived from the canonical URL plus the remaining fields
(title and numeric price stand in for the full record). -/
structure Listing where
  id : String
  title : String
  price : Rat
deriving DecidableEq, Repr

/-- First-seen-order deduplication by identifier, accumulating the
identifiers already kept. -/
def dedupGo (seen : List String) : List Listing → List Listing
  | [] => []
  | l :: rest =>
    if l.id ∈ seen then dedupGo seen rest
    else l :: dedupGo (l.id :: seen) rest

/-- Modelled from the spec: the Merger (`merge_csvs.py`, missing from
the server sources) concatenates the input datasets in iteration
order and deduplicates by listing identifier; on collision the first
occurrence wins and later duplicates are discarded silently. -/
def mergeDatasets (ds : List (List Listing)) : List Listing :=
  dedupGo [] ds.flatten

/-! ## Further concrete fixtures -/

/-- A world where every weighted/merged CSV probe fails
(`fs.existsSync` is `false`). -/
def noCsvWorld : World := { okWorld with existsSync := fun _ => false }

/-- A world with the external scoring credential absent. -/
def noCredWorld : World := { okWorld with credentialPresent := false }

/-- A world whose predictor resolves with zero usable listings. -/
def noDataWorld : World :=
  { okWorld with predictResult := .ok ⟨.jnull, .jnum 0, .jnum 14, .jnull, .jnull, .jnull⟩ }

/-- A request relying on the default (AI) weighting strategy. -/
def aiReq : Request := { baseReq with weighting_method := none }

/-- A request missing both `target_days` and `speed_mode`. -/
def missingOptionsReq : Request :=
  { baseReq with target_days := none, speed_mode := none }

/-- A request missing `item`. -/
def noItemReq : Request := { baseReq with item := none }

/-- A request with an unrecognized `speed_mode`. -/
def turboReq : Request := { baseReq with speed_mode := some "turbo" }

/-- Artifact areas holding another run's transient artifacts. -/
def otherRunFS : FS := ⟨["stale.html"], ["run_99"]⟩

/-! ## Lemmas about the scrape loop -/

theorem scrapeLoop_events_mem (w : World) (runId : String) (total : Nat) :
    ∀ (sorts : List String) (i : Nat) (store : Store) (csvs : List String),
      ∀ e ∈ (scrapeLoop w runId total sorts i store csvs).2.1,
        ∃ s j, e = .scrapeCall s (scrapingProgress j total) := by
  intro sorts
  induction sorts with
  | nil =>
    intro i store csvs e he
    simp [scrapeLoop] at he
  | cons sort rest ih =>
    intro i store csvs e he
    cases hs : w.scrape i with
    | error m =>
      simp [scrapeLoop, hs] at he
      exact ⟨sort, i, he⟩
    | ok d =>
      simp only [scrapeLoop, hs] at he
      rcases List.mem_cons.mp he with h | h
      · exact ⟨sort, i, h⟩
      · exact ih (i + 1) (store.set runId (scrapingProgress i total))
          (collectCsv w runId i csvs d) e h

theorem scrapeLoop_ok (w : World) (runId : String) (total : Nat) :
    ∀ (sorts : List String) (i : Nat) (store : Store) (csvs : List String),
      (∀ j, j < sorts.length → ∃ d, w.scrape (i + j) = .ok d) →
      ∃ store' evs csvs',
        scrapeLoop w runId total sorts i store csvs = (store', evs, .ok csvs')
        ∧ evs.filterMap Event.scrapeSort? = sorts := by
  intro sorts
  induction sorts with
  | nil =>
    intro i store csvs _
    exact ⟨store, [], csvs, rfl, rfl⟩
  | cons sort rest ih =>
    intro i store csvs h
    obtain ⟨d, hd⟩ := h 0 (by simp)
    rw [Nat.add_zero] at hd
    have harg : ∀ j, j < rest.length → ∃ d, w.scrape (i + 1 + j) = .ok d := by
      intro j hj
      have h' := h (j + 1) (by simpa using Nat.succ_lt_succ hj)
      have : i + (j + 1) = i + 1 + j := by omega
      rwa [this] at h'
    obtain ⟨store', evs, csvs', heq, hfil⟩ :=
      ih (i + 1) (store.set runId (scrapingProgress i total))
        (collectCsv w runId i csvs d) harg
    refine ⟨store', .scrapeCall sort (scrapingProgress i total) :: evs, csvs', ?_, ?_⟩
    · simp [scrapeLoop, hd, heq]
    · simp [List.filterMap_cons, Event.scrapeSort?, hfil]

theorem scrapeLoop_store_frame (w : World) (runId : String) (total : Nat) :
    ∀ (sorts : List String) (i : Nat) (store : Store) (csvs : List String)
      (k : String), k ≠ runId →
      (scrapeLoop w runId total sorts i store csvs).1 k = store k := by
  intro sorts
  induction sorts with
  | nil =>
    intro i store csvs k _
    rfl
  | cons sort rest ih =>
    intro i store csvs k hk
    cases hs : w.scrape i with
    | error m =>
      simp [scrapeLoop, hs, Store.set, hk]
    | ok d =>
      have hrec := ih (i + 1) (store.set runId (scrapingProgress i total))
        (collectCsv w runId i csvs d) k hk
      simp only [scrapeLoop, hs]
      rw [hrec]
      simp [Store.set, hk]

/-- The scrape loop reads only the collector and rename oracles. -/
theorem scrapeLoop_core_congr (w w' : World) (runId : String) (total : Nat)
    (hs : w.scrape = w'.scrape) (hr : w.renameOk = w'.renameOk) :
    ∀ (sorts : List String) (i : Nat) (store : Store) (csvs : List String),
      scrapeLoop w runId total sorts i store csvs
        = scrapeLoop w' runId total sorts i store csvs := by
  intro sorts
  induction sorts with
  | nil =>
    intro i store csvs
    rfl
  | cons sort rest ih =>
    intro i store csvs
    have hcol : collectCsv w runId i csvs = collectCsv w' runId i csvs := by
      funext d
      simp [collectCsv, hr]
    cases hsc : w'.scrape i with
    | error m =>
      simp [scrapeLoop, hs, hsc]
    | ok d =>
      simp [scrapeLoop, hs, hsc, hcol, ih]

/-! ## Lemmas about the other phases -/

theorem mergePhase_events (w : World) (sm : Option String) (runId : String)
    (store : Store) (csvs : List String) :
    (mergePhase w sm runId store csvs).2.1 = []
    ∨ ∃ p, (mergePhase w sm runId store csvs).2.1 = [.mergeCall p] := by
  unfold mergePhase
  split
  · exact Or.inl rfl
  · cases w.mergeResult with
    | error m => exact Or.inr ⟨_, rfl⟩
    | ok m => exact Or.inr ⟨_, rfl⟩

theorem mergePhase_store_frame (w : World) (sm : Option String) (runId : String)
    (store : Store) (csvs : List String) (k : String) (hk : k ≠ runId) :
    (mergePhase w sm runId store csvs).1 k = store k := by
  unfold mergePhase
  split
  · simp [Store.set, hk]
  · cases w.mergeResult with
    | error m => simp [Store.set, hk]
    | ok m => simp [Store.set, hk]

/-- Skipping the merger in ultra-fast mode: a single collected CSV is
used directly, with no merger invocation and no awaited call. -/
theorem mergePhase_skip (w : World) (runId : String) (store : Store) (c : String) :
    mergePhase w (some "ultra_fast") runId store [c]
      = (store.set runId ⟨"merging", 1, 1, "Using single CSV file (ultra fast mode)..."⟩,
          [], .ok (some c)) := rfl

theorem weightPhase_events (w : World) (wm : Option String) (runId : String)
    (store : Store) :
    ∃ m p, (weightPhase w wm runId store).2.1 = [.weightCall m p]
      ∧ p.status = "weighting" := by
  unfold weightPhase
  split
  · cases w.heuristicResult with
    | error e => exact ⟨"heuristic", _, rfl, rfl⟩
    | ok r => exact ⟨"heuristic", _, rfl, rfl⟩
  · cases aiScoreCall w with
    | error e => exact ⟨"ai", _, rfl, rfl⟩
    | ok r => exact ⟨"ai", _, rfl, rfl⟩

theorem weightPhase_store_frame (w : World) (wm : Option String) (runId : String)
    (store : Store) (k : String) (hk : k ≠ runId) :
    (weightPhase w wm runId store).1 k = store k := by
  unfold weightPhase
  split
  · cases w.heuristicResult with
    | error e => simp [Store.set, hk]
    | ok r => simp [Store.set, hk]
  · cases aiScoreCall w with
    | error e => simp [Store.set, hk]
    | ok r => simp [Store.set, hk]

/-- Unless the missing-CSV early return is taken, the prediction
stage always ends with exactly the cleanup pair: record deletion,
then artifact sweep, after all call events. -/
theorem predictPhase_events_shape (w : World) (req : Request) (runId : String)
    (store : Store) (fs : FS) (evs : List Event) (weighted combined : Option String)
    (h : (predictPhase w req runId store fs evs weighted combined).response
        ≠ ⟨200, .errBody csvNotFoundMsg⟩) :
    ∃ callEv,
      (predictPhase w req runId store fs evs weighted combined).events
        = (evs ++ [callEv]) ++ [.recordDeleted runId, .artifactSweep]
      ∧ callEv.isCleanup = false ∧ callEv.isScrape = false ∧ callEv.isMerge = false := by
  cases hex : csvExistsFor w weighted combined with
  | false =>
    exact absurd (by simp [predictPhase, hex]) h
  | true =>
    refine ⟨.predictCall (predictorScript req) (jsString req.target_days)
      predictingProgress, ?_, rfl, rfl, rfl⟩
    cases hp : w.predictResult with
    | error e => simp [predictPhase, hex, hp, catchPath]
    | ok pred =>
      cases hbad : badPrediction pred with
      | false => simp [predictPhase, hex, hp, hbad]
      | true => simp [predictPhase, hex, hp, hbad]

/-- Unless the missing-CSV early return is taken, the prediction
stage sweeps the artifact areas exactly once. -/
theorem predictPhase_fs (w : World) (req : Request) (runId : String)
    (store : Store) (fs : FS) (evs : List Event) (weighted combined : Option String)
    (h : (predictPhase w req runId store fs evs weighted combined).response
        ≠ ⟨200, .errBody csvNotFoundMsg⟩) :
    (predictPhase w req runId store fs evs weighted combined).fs
      = cleanupSweep w fs := by
  cases hex : csvExistsFor w weighted combined with
  | false =>
    exact absurd (by simp [predictPhase, hex]) h
  | true =>
    cases hp : w.predictResult with
    | error e => simp [predictPhase, hex, hp, catchPath]
    | ok pred =>
      cases hbad : badPrediction pred with
      | false => simp [predictPhase, hex, hp, hbad]
      | true => simp [predictPhase, hex, hp, hbad]

/-- The prediction stage only appends to the given trace. -/
theorem predictPhase_events_append (w : World) (req : Request) (runId : String)
    (store : Store) (fs : FS) (evs : List Event) (weighted combined : Option String) :
    ∃ tail,
      (predictPhase w req runId store fs evs weighted combined).events = evs ++ tail
      ∧ ∀ e ∈ tail, e.isScrape = false ∧ e.isMerge = false := by
  cases hex : csvExistsFor w weighted combined with
  | false =>
    exact ⟨[], by simp [predictPhase, hex], by simp⟩
  | true =>
    refine ⟨[.predictCall (predictorScript req) (jsString req.target_days)
      predictingProgress, .recordDeleted runId, .artifactSweep], ?_, ?_⟩
    · cases hp : w.predictResult with
      | error e => simp [predictPhase, hex, hp, catchPath]
      | ok pred =>
        cases hbad : badPrediction pred with
        | false => simp [predictPhase, hex, hp, hbad]
        | true => simp [predictPhase, hex, hp, hbad]
    · intro e he
      simp only [List.mem_cons, List.not_mem_nil, or_false] at he
      rcases he with rfl | rfl | rfl
      · exact ⟨rfl, rfl⟩
      · exact ⟨rfl, rfl⟩
      · exact ⟨rfl, rfl⟩

theorem predictPhase_store_frame (w : World) (req : Request) (runId : String)
    (store : Store) (fs : FS) (evs : List Event) (weighted combined : Option String)
    (k : String) (hk : k ≠ runId) :
    (predictPhase w req runId store fs evs weighted combined).store k = store k := by
  cases hex : csvExistsFor w weighted combined with
  | false => simp [predictPhase, hex, Store.set, hk]
  | true =>
    cases hp : w.predictResult with
    | error e => simp [predictPhase, hex, hp, catchPath, Store.del, Store.set, hk]
    | ok pred =>
      cases hbad : badPrediction pred with
      | false => simp [predictPhase, hex, hp, hbad, Store.del, Store.set, hk]
      | true => simp [predictPhase, hex, hp, hbad, Store.del, Store.set, hk]

theorem predictPhase_status (w : World) (req : Request) (runId : String)
    (store : Store) (fs : FS) (evs : List Event) (weighted combined : Option String) :
    (predictPhase w req runId store fs evs weighted combined).response.status = 200
    ∨ (predictPhase w req runId store fs evs weighted combined).response.status = 500 := by
  cases hex : csvExistsFor w weighted combined with
  | false => exact Or.inl (by simp [predictPhase, hex])
  | true =>
    cases hp : w.predictResult with
    | error e => exact Or.inr (by simp [predictPhase, hex, hp, catchPath])
    | ok pred =>
      cases hbad : badPrediction pred with
      | false => exact Or.inl (by simp [predictPhase, hex, hp, hbad])
      | true => exact Or.inl (by simp [predictPhase, hex, hp, hbad])

/-! ## Lemmas about the continuations and the full handler -/

theorem afterWeight_store_frame (w : World) (req : Request) (runId : String)
    (fs : FS) (evs : List Event) (combined : Option String)
    (wp : Store × List Event × PyOutcome (Option String))
    (k : String) (hk : k ≠ runId) :
    (afterWeight w req runId fs evs combined wp).store k = wp.1 k := by
  rcases wp with ⟨st, evs2, res⟩
  cases res with
  | error e => simp [afterWeight, catchPath, Store.del, hk]
  | ok weighted => exact predictPhase_store_frame w req runId st fs _ weighted combined k hk

theorem afterMerge_store_frame (w : World) (req : Request) (runId : String)
    (fs : FS) (evs : List Event)
    (m : Store × List Event × PyOutcome (Option String))
    (k : String) (hk : k ≠ runId) :
    (afterMerge w req runId fs evs m).store k = m.1 k := by
  rcases m with ⟨st, evs2, res⟩
  cases res with
  | error e => simp [afterMerge, catchPath, Store.del, hk]
  | ok combined =>
    have h1 := afterWeight_store_frame w req runId fs (evs ++ evs2) combined
      (weightPhase w req.weighting_method runId st) k hk
    have h2 := weightPhase_store_frame w req.weighting_method runId st k hk
    simpa [afterMerge, h2] using h1

theorem afterScrape_store_frame (w : World) (req : Request) (runId : String)
    (fs : FS) (s : Store × List Event × PyOutcome (List String))
    (k : String) (hk : k ≠ runId) :
    (afterScrape w req runId fs s).store k = s.1 k := by
  rcases s with ⟨st, evs1, res⟩
  cases res with
  | error e => simp [afterScrape, catchPath, Store.del, hk]
  | ok csvs =>
    have h1 := afterMerge_store_frame w req runId fs
      (Event.mkRunDirEv runId :: evs1) (mergePhase w req.speed_mode runId st csvs) k hk
    have h2 := mergePhase_store_frame w req.speed_mode runId st csvs k hk
    simpa [afterScrape, h2] using h1

/-- `execute` touches no progress record other than its own. -/
theorem runHandler_store_frame (w : World) (req : Request) (now : Nat)
    (store : Store) (fs : FS) (k : String)
    (hk : k ≠ "run_" ++ toString now) :
    (runHandler w req now store fs).store k = store k := by
  by_cases hitem : strFalsy req.item = true
  · simp [runHandler, hitem]
  · have hfb : (scraperMode == "facebook" || scraperMode == "ebay") = false := by decide
    have h1 := afterScrape_store_frame w req ("run_" ++ toString now)
      (fs.mkRunDir ("run_" ++ toString now))
      (scrapeLoop w ("run_" ++ toString now) (speedSelection req.speed_mode).2
        (speedSelection req.speed_mode).1 0
        (((store.set ("run_" ++ toString now) ⟨"scraping", 0, 5, "Starting scrape..."⟩).set
          ("run_" ++ toString now)
          ⟨"scraping", 1, (speedSelection req.speed_mode).2,
            "Scraping 1 of " ++ toString (speedSelection req.speed_mode).2 ++ "..."⟩)) [])
      k hk
    have h2 := scrapeLoop_store_frame w ("run_" ++ toString now)
      (speedSelection req.speed_mode).2 (speedSelection req.speed_mode).1 0
      (((store.set ("run_" ++ toString now) ⟨"scraping", 0, 5, "Starting scrape..."⟩).set
        ("run_" ++ toString now)
        ⟨"scraping", 1, (speedSelection req.speed_mode).2,
          "Scraping 1 of " ++ toString (speedSelection req.speed_mode).2 ++ "..."⟩)) [] k hk
    simp only [runHandler, hitem, hfb, Bool.false_eq_true, if_false]
    rw [h1, h2]
    simp [Store.set, hk]

theorem afterWeight_events_shape (w : World) (req : Request) (runId : String)
    (fs : FS) (evs : List Event) (combined : Option String)
    (wp : Store × List Event × PyOutcome (Option String))
    (hresp : (afterWeight w req runId fs evs combined wp).response ≠ csvNotFoundResponse)
    (hevs : ∀ e ∈ evs ++ wp.2.1, e.isCleanup = false) :
    ∃ pre, (afterWeight w req runId fs evs combined wp).events
        = pre ++ [.recordDeleted runId, .artifactSweep]
      ∧ ∀ e ∈ pre, e.isCleanup = false := by
  rcases wp with ⟨st, evs2, res⟩
  cases res with
  | error e =>
    exact ⟨evs ++ evs2, by simp [afterWeight, catchPath], hevs⟩
  | ok weighted =>
    obtain ⟨callEv, hev, hc, _, _⟩ := predictPhase_events_shape w req runId st fs
      (evs ++ evs2) weighted combined (by simpa [afterWeight, csvNotFoundResponse] using hresp)
    refine ⟨(evs ++ evs2) ++ [callEv], by simpa [afterWeight] using hev, ?_⟩
    intro e he
    rcases List.mem_append.mp he with h | h
    · exact hevs e h
    · rcases List.mem_singleton.mp h with rfl
      exact hc

theorem afterMerge_events_shape (w : World) (req : Request) (runId : String)
    (fs : FS) (evs : List Event)
    (m : Store × List Event × PyOutcome (Option String))
    (hresp : (afterMerge w req runId fs evs m).response ≠ csvNotFoundResponse)
    (hevs : ∀ e ∈ evs ++ m.2.1, e.isCleanup = false) :
    ∃ pre, (afterMerge w req runId fs evs m).events
        = pre ++ [.recordDeleted runId, .artifactSweep]
      ∧ ∀ e ∈ pre, e.isCleanup = false := by
  rcases m with ⟨st, evs2, res⟩
  cases res with
  | error e =>
    exact ⟨evs ++ evs2, by simp [afterMerge, catchPath], hevs⟩
  | ok combined =>
    obtain ⟨wm, wpp, hw, hwst⟩ := weightPhase_events w req.weighting_method runId st
    have hevs' : ∀ e ∈ (evs ++ evs2) ++ (weightPhase w req.weighting_method runId st).2.1,
        e.isCleanup = false := by
      intro e he
      rcases List.mem_append.mp he with h | h
      · exact hevs e h
      · rw [hw] at h
        rcases List.mem_singleton.mp h with rfl
        rfl
    have := afterWeight_events_shape w req runId fs (evs ++ evs2) combined
      (weightPhase w req.weighting_method runId st)
      (by simpa [afterMerge] using hresp) hevs'
    simpa [afterMerge] using this

theorem afterScrape_events_shape (w : World) (req : Request) (runId : String)
    (fs : FS) (s : Store × List Event × PyOutcome (List String))
    (hresp : (afterScrape w req runId fs s).response ≠ csvNotFoundResponse)
    (hevs : ∀ e ∈ s.2.1, e.isCleanup = false) :
    ∃ pre, (afterScrape w req runId fs s).events
        = pre ++ [.recordDeleted runId, .artifactSweep]
      ∧ ∀ e ∈ pre, e.isCleanup = false := by
  rcases s with ⟨st, evs1, res⟩
  have hevs0 : ∀ e ∈ Event.mkRunDirEv runId :: evs1, e.isCleanup = false := by
    intro e he
    rcases List.mem_cons.mp he with rfl | h
    · rfl
    · exact hevs e h
  cases res with
  | error e =>
    exact ⟨Event.mkRunDirEv runId :: evs1, by simp [afterScrape, catchPath], hevs0⟩
  | ok csvs =>
    rcases mergePhase_events w req.speed_mode runId st csvs with hm | ⟨mp, hm⟩
    · have hevs' : ∀ e ∈ (Event.mkRunDirEv runId :: evs1)
          ++ (mergePhase w req.speed_mode runId st csvs).2.1, e.isCleanup = false := by
        intro e he
        rcases List.mem_append.mp he with h | h
        · exact hevs0 e h
        · rw [hm] at h
          cases h
      have := afterMerge_events_shape w req runId fs (Event.mkRunDirEv runId :: evs1)
        (mergePhase w req.speed_mode runId st csvs)
        (by simpa [afterScrape] using hresp) hevs'
      simpa [afterScrape] using this
    · have hevs' : ∀ e ∈ (Event.mkRunDirEv runId :: evs1)
          ++ (mergePhase w req.speed_mode runId st csvs).2.1, e.isCleanup = false := by
        intro e he
        rcases List.mem_append.mp he with h | h
        · exact hevs0 e h
        · rw [hm] at h
          rcases List.mem_singleton.mp h with rfl
          rfl
      have := afterMerge_events_shape w req runId fs (Event.mkRunDirEv runId :: evs1)
        (mergePhase w req.speed_mode runId st csvs)
        (by simpa [afterScrape] using hresp) hevs'
      simpa [afterScrape] using this

theorem runHandler_events_shape (w : World) (req : Request) (now : Nat)
    (store : Store) (fs : FS)
    (hitem : strFalsy req.item = false)
    (hresp : (runHandler w req now store fs).response ≠ csvNotFoundResponse) :
    ∃ pre, (runHandler w req now store fs).events
        = pre ++ [.recordDeleted ("run_" ++ toString now), .artifactSweep]
      ∧ ∀ e ∈ pre, e.isCleanup = false := by
  have hfb : (scraperMode == "facebook" || scraperMode == "ebay") = false := by decide
  have hscr := scrapeLoop_events_mem w ("run_" ++ toString now)
    (speedSelection req.speed_mode).2 (speedSelection req.speed_mode).1 0
    (((store.set ("run_" ++ toString now) ⟨"scraping", 0, 5, "Starting scrape..."⟩).set
      ("run_" ++ toString now)
      ⟨"scraping", 1, (speedSelection req.speed_mode).2,
        "Scraping 1 of " ++ toString (speedSelection req.speed_mode).2 ++ "..."⟩)) []
  have hevs : ∀ e ∈ (scrapeLoop w ("run_" ++ toString now)
      (speedSelection req.speed_mode).2 (speedSelection req.speed_mode).1 0
      (((store.set ("run_" ++ toString now) ⟨"scraping", 0, 5, "Starting scrape..."⟩).set
        ("run_" ++ toString now)
        ⟨"scraping", 1, (speedSelection req.speed_mode).2,
          "Scraping 1 of " ++ toString (speedSelection req.speed_mode).2 ++ "..."⟩)) []).2.1,
      e.isCleanup = false := by
    intro e he
    obtain ⟨s, j, rfl⟩ := hscr e he
    rfl
  have := afterScrape_events_shape w req ("run_" ++ toString now)
    (fs.mkRunDir ("run_" ++ toString now))
    (scrapeLoop w ("run_" ++ toString now)
      (speedSelection req.speed_mode).2 (speedSelection req.speed_mode).1 0
      (((store.set ("run_" ++ toString now) ⟨"scraping", 0, 5, "Starting scrape..."⟩).set
        ("run_" ++ toString now)
        ⟨"scraping", 1, (speedSelection req.speed_mode).2,
          "Scraping 1 of " ++ toString (speedSelection req.speed_mode).2 ++ "..."⟩)) [])
    (by simpa [runHandler, hitem, hfb] using hresp) hevs
  simpa [runHandler, hitem, hfb] using this

theorem afterWeight_fs (w : World) (req : Request) (runId : String)
    (fs : FS) (evs : List Event) (combined : Option String)
    (wp : Store × List Event × PyOutcome (Option String))
    (hresp : (afterWeight w req runId fs evs combined wp).response ≠ csvNotFoundResponse) :
    (afterWeight w req runId fs evs combined wp).fs = cleanupSweep w fs := by
  rcases wp with ⟨st, evs2, res⟩
  cases res with
  | error e => rfl
  | ok weighted =>
    exact predictPhase_fs w req runId st fs (evs ++ evs2) weighted combined
      (by simpa [afterWeight, csvNotFoundResponse] using hresp)

theorem afterMerge_fs (w : World) (req : Request) (runId : String)
    (fs : FS) (evs : List Event)
    (m : Store × List Event × PyOutcome (Option String))
    (hresp : (afterMerge w req runId fs evs m).response ≠ csvNotFoundResponse) :
    (afterMerge w req runId fs evs m).fs = cleanupSweep w fs := by
  rcases m with ⟨st, evs2, res⟩
  cases res with
  | error e => rfl
  | ok combined =>
    exact afterWeight_fs w req runId fs (evs ++ evs2) combined
      (weightPhase w req.weighting_method runId st)
      (by simpa [afterMerge] using hresp)

theorem afterScrape_fs (w : World) (req : Request) (runId : String)
    (fs : FS) (s : Store × List Event × PyOutcome (List String))
    (hresp : (afterScrape w req runId fs s).response ≠ csvNotFoundResponse) :
    (afterScrape w req runId fs s).fs = cleanupSweep w fs := by
  rcases s with ⟨st, evs1, res⟩
  cases res with
  | error e => rfl
  | ok csvs =>
    exact afterMerge_fs w req runId fs (Event.mkRunDirEv runId :: evs1)
      (mergePhase w req.speed_mode runId st csvs)
      (by simpa [afterScrape] using hresp)

theorem runHandler_fs (w : World) (req : Request) (now : Nat)
    (store : Store) (fs : FS)
    (hitem : strFalsy req.item = false)
    (hresp : (runHandler w req now store fs).response ≠ csvNotFoundResponse) :
    (runHandler w req now store fs).fs
      = cleanupSweep w (fs.mkRunDir ("run_" ++ toString now)) := by
  have hfb : (scraperMode == "facebook" || scraperMode == "ebay") = false := by decide
  have := afterScrape_fs w req ("run_" ++ toString now)
    (fs.mkRunDir ("run_" ++ toString now))
    (scrapeLoop w ("run_" ++ toString now)
      (speedSelection req.speed_mode).2 (speedSelection req.speed_mode).1 0
      (((store.set ("run_" ++ toString now) ⟨"scraping", 0, 5, "Starting scrape..."⟩).set
        ("run_" ++ toString now)
        ⟨"scraping", 1, (speedSelection req.speed_mode).2,
          "Scraping 1 of " ++ toString (speedSelection req.speed_mode).2 ++ "..."⟩)) [])
    (by simpa [runHandler, hitem, hfb] using hresp)
  simpa [runHandler, hitem, hfb] using this

theorem afterWeight_status (w : World) (req : Request) (runId : String)
    (fs : FS) (evs : List Event) (combined : Option String)
    (wp : Store × List Event × PyOutcome (Option String)) :
    (afterWeight w req runId fs evs combined wp).response.status = 200
    ∨ (afterWeight w req runId fs evs combined wp).response.status = 500 := by
  rcases wp with ⟨st, evs2, res⟩
  cases res with
  | error e => exact Or.inr rfl
  | ok weighted => exact predictPhase_status w req runId st fs (evs ++ evs2) weighted combined

theorem afterMerge_status (w : World) (req : Request) (runId : String)
    (fs : FS) (evs : List Event)
    (m : Store × List Event × PyOutcome (Option String)) :
    (afterMerge w req runId fs evs m).response.status = 200
    ∨ (afterMerge w req runId fs evs m).response.status = 500 := by
  rcases m with ⟨st, evs2, res⟩
  cases res with
  | error e => exact Or.inr rfl
  | ok combined =>
    exact afterWeight_status w req runId fs (evs ++ evs2) combined
      (weightPhase w req.weighting_method runId st)

theorem afterScrape_status (w : World) (req : Request) (runId : String)
    (fs : FS) (s : Store × List Event × PyOutcome (List String)) :
    (afterScrape w req runId fs s).response.status = 200
    ∨ (afterScrape w req runId fs s).response.status = 500 := by
  rcases s with ⟨st, evs1, res⟩
  cases res with
  | error e => exact Or.inr rfl
  | ok csvs =>
    exact afterMerge_status w req runId fs (Event.mkRunDirEv runId :: evs1)
      (mergePhase w req.speed_mode runId st csvs)

/-- After validation passes, the handler answers 200 or 500 — there is
no other rejection. -/
theorem runHandler_status (w : World) (req : Request) (now : Nat)
    (store : Store) (fs : FS) (hitem : strFalsy req.item = false) :
    (runHandler w req now store fs).response.status = 200
    ∨ (runHandler w req now store fs).response.status = 500 := by
  have hfb : (scraperMode == "facebook" || scraperMode == "ebay") = false := by decide
  have := afterScrape_status w req ("run_" ++ toString now)
    (fs.mkRunDir ("run_" ++ toString now))
    (scrapeLoop w ("run_" ++ toString now)
      (speedSelection req.speed_mode).2 (speedSelection req.speed_mode).1 0
      (((store.set ("run_" ++ toString now) ⟨"scraping", 0, 5, "Starting scrape..."⟩).set
        ("run_" ++ toString now)
        ⟨"scraping", 1, (speedSelection req.speed_mode).2,
          "Scraping 1 of " ++ toString (speedSelection req.speed_mode).2 ++ "..."⟩)) [])
  simpa [runHandler, hitem, hfb] using this

theorem Event.not_scrape_sort_none {e : Event} (h : e.isScrape = false) :
    e.scrapeSort? = none ∧ e.scrapeTotal? = none := by
  cases e <;> first | exact ⟨rfl, rfl⟩ | cases h

theorem afterWeight_events_append (w : World) (req : Request) (runId : String)
    (fs : FS) (evs : List Event) (combined : Option String)
    (wp : Store × List Event × PyOutcome (Option String)) :
    ∃ tail, (afterWeight w req runId fs evs combined wp).events
        = (evs ++ wp.2.1) ++ tail
      ∧ ∀ e ∈ tail, e.isScrape = false ∧ e.isMerge = false := by
  rcases wp with ⟨st, evs2, res⟩
  cases res with
  | error e =>
    refine ⟨[.recordDeleted runId, .artifactSweep], by simp [afterWeight, catchPath], ?_⟩
    intro e he
    simp only [List.mem_cons, List.not_mem_nil, or_false] at he
    rcases he with rfl | rfl
    · exact ⟨rfl, rfl⟩
    · exact ⟨rfl, rfl⟩
  | ok weighted =>
    obtain ⟨tail, htail, hmem⟩ := predictPhase_events_append w req runId st fs
      (evs ++ evs2) weighted combined
    exact ⟨tail, by simpa [afterWeight] using htail, hmem⟩

theorem afterMerge_events_append (w : World) (req : Request) (runId : String)
    (fs : FS) (evs : List Event)
    (m : Store × List Event × PyOutcome (Option String)) :
    ∃ tail, (afterMerge w req runId fs evs m).events = (evs ++ m.2.1) ++ tail
      ∧ ∀ e ∈ tail, e.isScrape = false ∧ e.isMerge = false := by
  rcases m with ⟨st, evs2, res⟩
  cases res with
  | error e =>
    refine ⟨[.recordDeleted runId, .artifactSweep], by simp [afterMerge, catchPath], ?_⟩
    intro e he
    simp only [List.mem_cons, List.not_mem_nil, or_false] at he
    rcases he with rfl | rfl
    · exact ⟨rfl, rfl⟩
    · exact ⟨rfl, rfl⟩
  | ok combined =>
    obtain ⟨wm, wpp, hw, _⟩ := weightPhase_events w req.weighting_method runId st
    obtain ⟨tail, htail, hmem⟩ := afterWeight_events_append w req runId fs
      (evs ++ evs2) combined (weightPhase w req.weighting_method runId st)
    refine ⟨(weightPhase w req.weighting_method runId st).2.1 ++ tail, ?_, ?_⟩
    · simpa [afterMerge, List.append_assoc] using htail
    · intro e he
      rcases List.mem_append.mp he with h | h
      · rw [hw] at h
        rcases List.mem_singleton.mp h with rfl
        exact ⟨rfl, rfl⟩
      · exact hmem e h

theorem afterScrape_events_append (w : World) (req : Request) (runId : String)
    (fs : FS) (s : Store × List Event × PyOutcome (List String)) :
    ∃ tail, (afterScrape w req runId fs s).events
        = Event.mkRunDirEv runId :: (s.2.1 ++ tail)
      ∧ ∀ e ∈ tail, e.isScrape = false := by
  rcases s with ⟨st, evs1, res⟩
  cases res with
  | error e =>
    refine ⟨[.recordDeleted runId, .artifactSweep], by simp [afterScrape, catchPath], ?_⟩
    intro e he
    simp only [List.mem_cons, List.not_mem_nil, or_false] at he
    rcases he with rfl | rfl
    · rfl
    · rfl
  | ok csvs =>
    obtain ⟨tail, htail, hmem⟩ := afterMerge_events_append w req runId fs
      (Event.mkRunDirEv runId :: evs1) (mergePhase w req.speed_mode runId st csvs)
    refine ⟨(mergePhase w req.speed_mode runId st csvs).2.1 ++ tail, ?_, ?_⟩
    · simpa [afterScrape, List.append_assoc] using htail
    · intro e he
      rcases List.mem_append.mp he with h | h
      · rcases mergePhase_events w req.speed_mode runId st csvs with hm | ⟨mp, hm⟩
        · rw [hm] at h
          cases h
        · rw [hm] at h
          rcases List.mem_singleton.mp h with rfl
          rfl
      · exact (hmem e h).1

/-- After validation, when every selected collector call succeeds, the
collector is invoked exactly once per selected sort variant, in list
order, and every observable scraping snapshot reports the selected
prefix length as `total`. -/
theorem runHandler_scrape_events (w : World) (req : Request) (now : Nat)
    (store : Store) (fs : FS)
    (hitem : strFalsy req.item = false)
    (hok : ∀ j, j < (speedSelection req.speed_mode).1.length → ∃ d, w.scrape j = .ok d) :
    (runHandler w req now store fs).events.filterMap Event.scrapeSort?
        = (speedSelection req.speed_mode).1
    ∧ ∀ t ∈ (runHandler w req now store fs).events.filterMap Event.scrapeTotal?,
        t = (speedSelection req.speed_mode).2 := by
  have hfb : (scraperMode == "facebook" || scraperMode == "ebay") = false := by decide
  have hok0 : ∀ j, j < (speedSelection req.speed_mode).1.length →
      ∃ d, w.scrape (0 + j) = .ok d := by
    intro j hj
    simpa using hok j hj
  obtain ⟨store', evs, csvs', heq, hfil⟩ := scrapeLoop_ok w ("run_" ++ toString now)
    (speedSelection req.speed_mode).2 (speedSelection req.speed_mode).1 0
    (((store.set ("run_" ++ toString now) ⟨"scraping", 0, 5, "Starting scrape..."⟩).set
      ("run_" ++ toString now)
      ⟨"scraping", 1, (speedSelection req.speed_mode).2,
        "Scraping 1 of " ++ toString (speedSelection req.speed_mode).2 ++ "..."⟩)) [] hok0
  have hmem := scrapeLoop_events_mem w ("run_" ++ toString now)
    (speedSelection req.speed_mode).2 (speedSelection req.speed_mode).1 0
    (((store.set ("run_" ++ toString now) ⟨"scraping", 0, 5, "Starting scrape..."⟩).set
      ("run_" ++ toString now)
      ⟨"scraping", 1, (speedSelection req.speed_mode).2,
        "Scraping 1 of " ++ toString (speedSelection req.speed_mode).2 ++ "..."⟩)) []
  obtain ⟨tail, htail, htailmem⟩ := afterScrape_events_append w req
    ("run_" ++ toString now) (fs.mkRunDir ("run_" ++ toString now))
    (scrapeLoop w ("run_" ++ toString now)
      (speedSelection req.speed_mode).2 (speedSelection req.speed_mode).1 0
      (((store.set ("run_" ++ toString now) ⟨"scraping", 0, 5, "Starting scrape..."⟩).set
        ("run_" ++ toString now)
        ⟨"scraping", 1, (speedSelection req.speed_mode).2,
          "Scraping 1 of " ++ toString (speedSelection req.speed_mode).2 ++ "..."⟩)) [])
  rw [heq] at htail hmem
  have hrun : (runHandler w req now store fs).events
      = Event.mkRunDirEv ("run_" ++ toString now) :: (evs ++ tail) := by
    simp only [runHandler, hitem, hfb]
    simpa [heq] using htail
  constructor
  · rw [hrun]
    rw [List.filterMap_cons, List.filterMap_append]
    have htail0 : tail.filterMap Event.scrapeSort? = [] := by
      rw [List.filterMap_eq_nil_iff]
      intro e he
      exact (Event.not_scrape_sort_none (htailmem e he)).1
    simp [Event.scrapeSort?, htail0, hfil]
  · intro t ht
    rw [hrun] at ht
    obtain ⟨e, he, hfe⟩ := List.mem_filterMap.mp ht
    rcases List.mem_cons.mp he with rfl | he
    · cases hfe
    · rcases List.mem_append.mp he with he | he
      · obtain ⟨s, j, rfl⟩ := hmem e he
        simp only [Event.scrapeTotal?, scrapingProgress, Option.some.injEq] at hfe
        omega
      · rw [(Event.not_scrape_sort_none (htailmem e he)).2] at hfe
        cases hfe

/-! ## Cleanup failures never influence the response -/

theorem scrapeLoop_withCleanup (w : World) (u r : String → Bool) (a b : Bool)
    (runId : String) (total : Nat) (sorts : List String) (i : Nat)
    (store : Store) (csvs : List String) :
    scrapeLoop (w.withCleanup u r a b) runId total sorts i store csvs
      = scrapeLoop w runId total sorts i store csvs :=
  scrapeLoop_core_congr (w.withCleanup u r a b) w runId total rfl rfl sorts i store csvs

theorem mergePhase_withCleanup (w : World) (u r : String → Bool) (a b : Bool)
    (sm : Option String) (runId : String) (store : Store) (csvs : List String) :
    mergePhase (w.withCleanup u r a b) sm runId store csvs
      = mergePhase w sm runId store csvs := rfl

theorem weightPhase_withCleanup (w : World) (u r : String → Bool) (a b : Bool)
    (wm : Option String) (runId : String) (store : Store) :
    weightPhase (w.withCleanup u r a b) wm runId store
      = weightPhase w wm runId store := rfl

theorem csvExistsFor_withCleanup (w : World) (u r : String → Bool) (a b : Bool) :
    csvExistsFor (w.withCleanup u r a b) = csvExistsFor w := rfl

theorem predictPhase_cleanup_parts (w : World) (u r : String → Bool) (a b : Bool)
    (req : Request) (runId : String) (store : Store) (fs : FS) (evs : List Event)
    (weighted combined : Option String) :
    (predictPhase (w.withCleanup u r a b) req runId store fs evs weighted combined).response
      = (predictPhase w req runId store fs evs weighted combined).response
    ∧ (predictPhase (w.withCleanup u r a b) req runId store fs evs weighted combined).events
      = (predictPhase w req runId store fs evs weighted combined).events
    ∧ (predictPhase (w.withCleanup u r a b) req runId store fs evs weighted combined).store
      = (predictPhase w req runId store fs evs weighted combined).store := by
  have hpr : (w.withCleanup u r a b).predictResult = w.predictResult := rfl
  cases h1 : csvExistsFor w weighted combined with
  | false =>
    refine ⟨?_, ?_, ?_⟩ <;>
      simp [predictPhase, csvExistsFor_withCleanup, h1]
  | true =>
    cases hp : w.predictResult with
    | error e =>
      refine ⟨?_, ?_, ?_⟩ <;>
        simp [predictPhase, csvExistsFor_withCleanup, h1, hpr, hp, catchPath]
    | ok pred =>
      cases hbad : badPrediction pred with
      | false =>
        refine ⟨?_, ?_, ?_⟩ <;>
          simp [predictPhase, csvExistsFor_withCleanup, h1, hpr, hp, hbad]
      | true =>
        refine ⟨?_, ?_, ?_⟩ <;>
          simp [predictPhase, csvExistsFor_withCleanup, h1, hpr, hp, hbad]

theorem afterWeight_cleanup_parts (w : World) (u r : String → Bool) (a b : Bool)
    (req : Request) (runId : String) (fs : FS) (evs : List Event)
    (combined : Option String)
    (wp : Store × List Event × PyOutcome (Option String)) :
    (afterWeight (w.withCleanup u r a b) req runId fs evs combined wp).response
      = (afterWeight w req runId fs evs combined wp).response
    ∧ (afterWeight (w.withCleanup u r a b) req runId fs evs combined wp).events
      = (afterWeight w req runId fs evs combined wp).events
    ∧ (afterWeight (w.withCleanup u r a b) req runId fs evs combined wp).store
      = (afterWeight w req runId fs evs combined wp).store := by
  rcases wp with ⟨st, evs2, res⟩
  cases res with
  | error e => exact ⟨rfl, rfl, rfl⟩
  | ok weighted =>
    exact predictPhase_cleanup_parts w u r a b req runId st fs (evs ++ evs2)
      weighted combined

theorem afterMerge_cleanup_parts (w : World) (u r : String → Bool) (a b : Bool)
    (req : Request) (runId : String) (fs : FS) (evs : List Event)
    (m : Store × List Event × PyOutcome (Option String)) :
    (afterMerge (w.withCleanup u r a b) req runId fs evs m).response
      = (afterMerge w req runId fs evs m).response
    ∧ (afterMerge (w.withCleanup u r a b) req runId fs evs m).events
      = (afterMerge w req runId fs evs m).events
    ∧ (afterMerge (w.withCleanup u r a b) req runId fs evs m).store
      = (afterMerge w req runId fs evs m).store := by
  rcases m with ⟨st, evs2, res⟩
  cases res with
  | error e => exact ⟨rfl, rfl, rfl⟩
  | ok combined =>
    have := afterWeight_cleanup_parts w u r a b req runId fs (evs ++ evs2) combined
      (weightPhase w req.weighting_method runId st)
    simpa [afterMerge, weightPhase_withCleanup] using this

theorem afterScrape_cleanup_parts (w : World) (u r : String → Bool) (a b : Bool)
    (req : Request) (runId : String) (fs : FS)
    (s : Store × List Event × PyOutcome (List String)) :
    (afterScrape (w.withCleanup u r a b) req runId fs s).response
      = (afterScrape w req runId fs s).response
    ∧ (afterScrape (w.withCleanup u r a b) req runId fs s).events
      = (afterScrape w req runId fs s).events
    ∧ (afterScrape (w.withCleanup u r a b) req runId fs s).store
      = (afterScrape w req runId fs s).store := by
  rcases s with ⟨st, evs1, res⟩
  cases res with
  | error e => exact ⟨rfl, rfl, rfl⟩
  | ok csvs =>
    have := afterMerge_cleanup_parts w u r a b req runId fs
      (Event.mkRunDirEv runId :: evs1) (mergePhase w req.speed_mode runId st csvs)
    simpa [afterScrape, mergePhase_withCleanup] using this

/-- Failures inside the cleanup sweep are swallowed: they never change
the response (nor the trace, nor the progress store). -/
theorem runHandler_cleanup_response (w : World) (u r : String → Bool) (a b : Bool)
    (req : Request) (now : Nat) (store : Store) (fs : FS) :
    (runHandler (w.withCleanup u r a b) req now store fs).response
      = (runHandler w req now store fs).response := by
  by_cases hitem : strFalsy req.item = true
  · simp [runHandler, hitem]
  · have hfb : (scraperMode == "facebook" || scraperMode == "ebay") = false := by decide
    have := (afterScrape_cleanup_parts w u r a b req ("run_" ++ toString now)
      (fs.mkRunDir ("run_" ++ toString now))
      (scrapeLoop w ("run_" ++ toString now)
        (speedSelection req.speed_mode).2 (speedSelection req.speed_mode).1 0
        (((store.set ("run_" ++ toString now) ⟨"scraping", 0, 5, "Starting scrape..."⟩).set
          ("run_" ++ toString now)
          ⟨"scraping", 1, (speedSelection req.speed_mode).2,
            "Scraping 1 of " ++ toString (speedSelection req.speed_mode).2 ++ "..."⟩)) [])).1
    simp only [runHandler, hitem, hfb]
    simpa [scrapeLoop_withCleanup] using this

/-! ## Further helper lemmas -/

/-- When the merger (if invoked) resolves, the merge stage always
yields a combined CSV path. -/
theorem mergePhase_ok (w : World) (sm : Option String) (runId : String)
    (store : Store) (csvs : List String) (mo : MergeData)
    (hmo : w.mergeResult = .ok mo) :
    ∃ st' evs' comb, mergePhase w sm runId store csvs = (st', evs', .ok comb) := by
  unfold mergePhase
  split
  · exact ⟨_, _, _, rfl⟩
  · rw [hmo]
    exact ⟨_, _, _, rfl⟩

/-- With any non-heuristic weighting method and the scoring credential
absent, the weighting stage is entered (progress set to `weighting`,
scoring call issued) and the call rejects. -/
theorem weightPhase_ai_no_credential (w : World) (wm : Option String)
    (runId : String) (store : Store)
    (hwm : wm ≠ some "heuristic") (hcred : w.credentialPresent = false) :
    weightPhase w wm runId store
      = (store.set runId
          ⟨"weighting", 1, 1, "Applying AI weighting (this may take a while)..."⟩,
        [.weightCall "ai"
          ⟨"weighting", 1, 1, "Applying AI weighting (this may take a while)..."⟩],
        .error "external scoring credential absent") := by
  have hb : (wm == some "heuristic") = false := by
    cases h : wm == some "heuristic"
    · rfl
    · exact absurd (eq_of_beq h) hwm
  simp [weightPhase, hb, aiScoreCall, hcred]

theorem dedupGo_eq_self (ls : List Listing) :
    ∀ seen, (∀ l ∈ ls, l.id ∉ seen) → (ls.map Listing.id).Nodup →
      dedupGo seen ls = ls := by
  induction ls with
  | nil => intro seen _ _; rfl
  | cons l rest ih =>
    intro seen hseen hnodup
    have hl : l.id ∉ seen := hseen l (List.mem_cons_self l rest)
    rw [List.map_cons, List.nodup_cons] at hnodup
    have hrec := ih (l.id :: seen) ?_ hnodup.2
    · simp [dedupGo, hl, hrec]
    · intro x hx
      rw [List.mem_cons]
      rintro (hid | hid)
      · exact hnodup.1 (hid ▸ List.mem_map_of_mem Listing.id hx)
      · exact hseen x (List.mem_cons_of_mem l hx) hid

/-- Merging a single duplicate-free dataset is the identity. -/
theorem mergeDatasets_single (D : List Listing)
    (hnodup : (D.map Listing.id).Nodup) : mergeDatasets [D] = D := by
  have : ([D] : List (List Listing)).flatten = D := by simp
  rw [mergeDatasets, this]
  exact dedupGo_eq_self D [] (by simp) hnodup

/-! ## The invalid-prediction outcome -/

theorem predictPhase_noData (w : World) (req : Request) (runId : String)
    (store : Store) (fs : FS) (evs : List Event) (weighted combined : Option String)
    (p : Prediction)
    (hp : w.predictResult = .ok p) (hbad : badPrediction p = true)
    (hevs : ∀ e ∈ evs, e.isPredict = false)
    (hcall : ∃ sc td sn, Event.predictCall sc td sn
        ∈ (predictPhase w req runId store fs evs weighted combined).events) :
    (predictPhase w req runId store fs evs weighted combined).response
      = ⟨200, .errBody noDataMsg⟩ := by
  cases hex : csvExistsFor w weighted combined with
  | false =>
    obtain ⟨sc, td, sn, hmem⟩ := hcall
    have hevents : (predictPhase w req runId store fs evs weighted combined).events
        = evs := by simp [predictPhase, hex]
    rw [hevents] at hmem
    exact absurd (hevs _ hmem) (by simp [Event.isPredict])
  | true => simp [predictPhase, hex, hp, hbad]

theorem afterWeight_noData (w : World) (req : Request) (runId : String)
    (fs : FS) (evs : List Event) (combined : Option String)
    (wp : Store × List Event × PyOutcome (Option String)) (p : Prediction)
    (hp : w.predictResult = .ok p) (hbad : badPrediction p = true)
    (hevs : ∀ e ∈ evs ++ wp.2.1, e.isPredict = false)
    (hcall : ∃ sc td sn, Event.predictCall sc td sn
        ∈ (afterWeight w req runId fs evs combined wp).events) :
    (afterWeight w req runId fs evs combined wp).response
      = ⟨200, .errBody noDataMsg⟩ := by
  rcases wp with ⟨st, evs2, res⟩
  cases res with
  | error e =>
    obtain ⟨sc, td, sn, hmem⟩ := hcall
    have hevents : (afterWeight w req runId fs evs combined (st, evs2, .error e)).events
        = (evs ++ evs2) ++ [.recordDeleted runId, .artifactSweep] := by
      simp [afterWeight, catchPath]
    rw [hevents] at hmem
    rcases List.mem_append.mp hmem with h | h
    · exact absurd (hevs _ h) (by simp [Event.isPredict])
    · simp only [List.mem_cons, List.not_mem_nil, or_false] at h
      rcases h with h | h <;> cases h
  | ok weighted =>
    exact predictPhase_noData w req runId st fs (evs ++ evs2) weighted combined p
      hp hbad hevs (by simpa [afterWeight] using hcall)

theorem afterMerge_noData (w : World) (req : Request) (runId : String)
    (fs : FS) (evs : List Event)
    (m : Store × List Event × PyOutcome (Option String)) (p : Prediction)
    (hp : w.predictResult = .ok p) (hbad : badPrediction p = true)
    (hevs : ∀ e ∈ evs ++ m.2.1, e.isPredict = false)
    (hcall : ∃ sc td sn, Event.predictCall sc td sn
        ∈ (afterMerge w req runId fs evs m).events) :
    (afterMerge w req runId fs evs m).response = ⟨200, .errBody noDataMsg⟩ := by
  rcases m with ⟨st, evs2, res⟩
  cases res with
  | error e =>
    obtain ⟨sc, td, sn, hmem⟩ := hcall
    have hevents : (afterMerge w req runId fs evs (st, evs2, .error e)).events
        = (evs ++ evs2) ++ [.recordDeleted runId, .artifactSweep] := by
      simp [afterMerge, catchPath]
    rw [hevents] at hmem
    rcases List.mem_append.mp hmem with h | h
    · exact absurd (hevs _ h) (by simp [Event.isPredict])
    · simp only [List.mem_cons, List.not_mem_nil, or_false] at h
      rcases h with h | h <;> cases h
  | ok combined =>
    obtain ⟨wm, wpp, hw, _⟩ := weightPhase_events w req.weighting_method runId st
    refine afterWeight_noData w req runId fs (evs ++ evs2) combined
      (weightPhase w req.weighting_method runId st) p hp hbad ?_
      (by simpa [afterMerge] using hcall)
    intro e he
    rcases List.mem_append.mp he with h | h
    · exact hevs e h
    · rw [hw] at h
      rcases List.mem_singleton.mp h with rfl
      rfl

theorem afterScrape_noData (w : World) (req : Request) (runId : String)
    (fs : FS) (s : Store × List Event × PyOutcome (List String)) (p : Prediction)
    (hp : w.predictResult = .ok p) (hbad : badPrediction p = true)
    (hevs : ∀ e ∈ s.2.1, e.isPredict = false)
    (hcall : ∃ sc td sn, Event.predictCall sc td sn
        ∈ (afterScrape w req runId fs s).events) :
    (afterScrape w req runId fs s).response = ⟨200, .errBody noDataMsg⟩ := by
  rcases s with ⟨st, evs1, res⟩
  cases res with
  | error e =>
    obtain ⟨sc, td, sn, hmem⟩ := hcall
    have hevents : (afterScrape w req runId fs (st, evs1, .error e)).events
        = (Event.mkRunDirEv runId :: evs1) ++ [.recordDeleted runId, .artifactSweep] := by
      simp [afterScrape, catchPath]
    rw [hevents] at hmem
    rcases List.mem_append.mp hmem with h | h
    · rcases List.mem_cons.mp h with h | h
      · cases h
      · exact absurd (hevs _ h) (by simp [Event.isPredict])
    · simp only [List.mem_cons, List.not_mem_nil, or_false] at h
      rcases h with h | h <;> cases h
  | ok csvs =>
    refine afterMerge_noData w req runId fs (Event.mkRunDirEv runId :: evs1)
      (mergePhase w req.speed_mode runId st csvs) p hp hbad ?_
      (by simpa [afterScrape] using hcall)
    intro e he
    rcases List.mem_append.mp he with h | h
    · rcases List.mem_cons.mp h with rfl | h
      · rfl
      · exact hevs e h
    · rcases mergePhase_events w req.speed_mode runId st csvs with hm | ⟨mp, hm⟩
      · rw [hm] at h
        cases h
      · rw [hm] at h
        rcases List.mem_singleton.mp h with rfl
        rfl

/-! ## Claim theorems -/

/-- C8: for every run identifier for which no Run record currently
exists — unknown, never started, or already finished — `GET
/api/progress/:runId` returns the completed sentinel
(`{status: 'completed'}`) and never an error. -/
theorem claim8_progress_completed_sentinel (store : Store) (runId : String)
    (h : store runId = none) :
    getProgress store runId = .completedSentinel := by
  simp [getProgress, h]

/-- Witness for C8 at a concrete unknown identifier. -/
theorem claim8_progress_completed_sentinel_witness :
    Store.empty "run_42" = none
    ∧ getProgress Store.empty "run_42" = .completedSentinel :=
  ⟨rfl, claim8_progress_completed_sentinel Store.empty "run_42" rfl⟩

/-- C3: the speed mode selects a prefix of the ordered sort-variant
list `['3','4','5','6','7']`: `ultra_fast` invokes the collector
exactly once, `fast` exactly twice, `normal` exactly five times,
sequentially in list order, and the `total` field of every observable
scraping snapshot equals that count. -/
theorem claim3_speed_mode_counts (w : World) (req : Request) (now : Nat)
    (store : Store) (fs : FS) (k : Nat)
    (hitem : strFalsy req.item = false)
    (hmode : (req.speed_mode = some "ultra_fast" ∧ k = 1)
      ∨ (req.speed_mode = some "fast" ∧ k = 2)
      ∨ (req.speed_mode = some "normal" ∧ k = 5))
    (hok : ∀ j, j < k → ∃ d, w.scrape j = .ok d) :
    (runHandler w req now store fs).events.filterMap Event.scrapeSort?
        = sortOptions.take k
    ∧ ((runHandler w req now store fs).events.filterMap Event.scrapeSort?).length = k
    ∧ ∀ t ∈ (runHandler w req now store fs).events.filterMap Event.scrapeTotal?,
        t = k := by
  have hsp : speedSelection req.speed_mode = (sortOptions.take k, k) := by
    rcases hmode with ⟨h, rfl⟩ | ⟨h, rfl⟩ | ⟨h, rfl⟩ <;> simp [speedSelection, h, sortOptions]
  have hok' : ∀ j, j < (speedSelection req.speed_mode).1.length → ∃ d, w.scrape j = .ok d := by
    rw [hsp]
    intro j hj
    rw [List.length_take] at hj
    exact hok j (lt_of_lt_of_le hj (min_le_left _ _))
  obtain ⟨h1, h2⟩ := runHandler_scrape_events w req now store fs hitem hok'
  have h1' : (runHandler w req now store fs).events.filterMap Event.scrapeSort?
      = sortOptions.take k := by simpa [hsp] using h1
  refine ⟨h1', ?_, by simpa [hsp] using h2⟩
  rw [h1', List.length_take]
  have hk5 : k ≤ 5 := by
    rcases hmode with ⟨_, rfl⟩ | ⟨_, rfl⟩ | ⟨_, rfl⟩ <;> omega
  have : sortOptions.length = 5 := by simp [sortOptions]
  omega

/-- Witness for C3: a concrete ultra-fast run makes exactly one
collector call with reported total 1. -/
theorem claim3_speed_mode_counts_witness :
    strFalsy baseReq.item = false
    ∧ ((runHandler okWorld baseReq 7 Store.empty emptyFS).events.filterMap
          Event.scrapeSort? = sortOptions.take 1
      ∧ ((runHandler okWorld baseReq 7 Store.empty emptyFS).events.filterMap
          Event.scrapeSort?).length = 1
      ∧ ∀ t ∈ (runHandler okWorld baseReq 7 Store.empty emptyFS).events.filterMap
          Event.scrapeTotal?, t = 1) :=
  ⟨rfl, claim3_speed_mode_counts okWorld baseReq 7 Store.empty emptyFS 1 rfl
    (Or.inl ⟨rfl, rfl⟩) (fun _ _ => ⟨_, rfl⟩)⟩

/-- C10: any `speed_mode` other than exactly `ultra_fast` or `fast` —
absent, empty, or unrecognized — is silently treated as `normal`: all
five collector invocations run with reported total 5, and the request
is never rejected for an invalid speed mode. -/
theorem claim10_speed_mode_default (w : World) (req : Request) (now : Nat)
    (store : Store) (fs : FS)
    (hitem : strFalsy req.item = false)
    (h1 : req.speed_mode ≠ some "ultra_fast")
    (h2 : req.speed_mode ≠ some "fast")
    (hok : ∀ j, j < 5 → ∃ d, w.scrape j = .ok d) :
    (runHandler w req now store fs).events.filterMap Event.scrapeSort? = sortOptions
    ∧ (∀ t ∈ (runHandler w req now store fs).events.filterMap Event.scrapeTotal?,
        t = 5)
    ∧ (runHandler w req now store fs).response.status ≠ 400 := by
  have hsp : speedSelection req.speed_mode = (sortOptions, 5) := by
    simp [speedSelection, h1, h2]
  have hok' : ∀ j, j < (speedSelection req.speed_mode).1.length → ∃ d, w.scrape j = .ok d := by
    rw [hsp]
    intro j hj
    exact hok j (by simpa [sortOptions] using hj)
  obtain ⟨ha, hb⟩ := runHandler_scrape_events w req now store fs hitem hok'
  refine ⟨by simpa [hsp] using ha, by simpa [hsp] using hb, ?_⟩
  rcases runHandler_status w req now store fs hitem with h | h <;> simp [h]

/-- Witness for C10: a concrete run with `speed_mode = "turbo"` runs
all five collector calls with total 5 and is not rejected. -/
theorem claim10_speed_mode_default_witness :
    strFalsy turboReq.item = false
    ∧ ((runHandler okWorld turboReq 7 Store.empty emptyFS).events.filterMap
          Event.scrapeSort? = sortOptions
      ∧ (∀ t ∈ (runHandler okWorld turboReq 7 Store.empty emptyFS).events.filterMap
          Event.scrapeTotal?, t = 5)
      ∧ (runHandler okWorld turboReq 7 Store.empty emptyFS).response.status ≠ 400) :=
  ⟨rfl, claim10_speed_mode_default okWorld turboReq 7 Store.empty emptyFS rfl
    (by decide) (by decide) (fun _ _ => ⟨_, rfl⟩)⟩

/-- C7: whenever the predictor resolves with zero usable listings
(`data_points` equal to `0` or `"0"`, or no usable predicted price),
the run completes without an unhandled exception and the caller
receives the domain-level "no data available" failure with guidance
to broaden the search — never a response presented as a usable
prediction. -/
theorem claim7_no_data_domain_failure (w : World) (req : Request) (now : Nat)
    (store : Store) (fs : FS) (p : Prediction) (script td : String) (snap : Progress)
    (hp : w.predictResult = .ok p)
    (hbad : p.data_points = .jnum 0 ∨ p.data_points = .jstr "0"
        ∨ p.predicted_price.truthy = false)
    (hcall : Event.predictCall script td snap ∈ (runHandler w req now store fs).events) :
    (runHandler w req now store fs).response = ⟨200, .errBody noDataMsg⟩ := by
  have hbad' : badPrediction p = true := by
    rcases hbad with h | h | h <;> simp [badPrediction, h]
  by_cases hitem : strFalsy req.item = true
  · simp [runHandler, hitem] at hcall
  · have hfb : (scraperMode == "facebook" || scraperMode == "ebay") = false := by decide
    have hmem := scrapeLoop_events_mem w ("run_" ++ toString now)
      (speedSelection req.speed_mode).2 (speedSelection req.speed_mode).1 0
      (((store.set ("run_" ++ toString now) ⟨"scraping", 0, 5, "Starting scrape..."⟩).set
        ("run_" ++ toString now)
        ⟨"scraping", 1, (speedSelection req.speed_mode).2,
          "Scraping 1 of " ++ toString (speedSelection req.speed_mode).2 ++ "..."⟩)) []
    have hnp : ∀ e ∈ (scrapeLoop w ("run_" ++ toString now)
        (speedSelection req.speed_mode).2 (speedSelection req.speed_mode).1 0
        (((store.set ("run_" ++ toString now) ⟨"scraping", 0, 5, "Starting scrape..."⟩).set
          ("run_" ++ toString now)
          ⟨"scraping", 1, (speedSelection req.speed_mode).2,
            "Scraping 1 of " ++ toString (speedSelection req.speed_mode).2 ++ "..."⟩)) []).2.1,
        e.isPredict = false := by
      intro e he
      obtain ⟨s, j, rfl⟩ := hmem e he
      rfl
    have := afterScrape_noData w req ("run_" ++ toString now)
      (fs.mkRunDir ("run_" ++ toString now))
      (scrapeLoop w ("run_" ++ toString now)
        (speedSelection req.speed_mode).2 (speedSelection req.speed_mode).1 0
        (((store.set ("run_" ++ toString now) ⟨"scraping", 0, 5, "Starting scrape..."⟩).set
          ("run_" ++ toString now)
          ⟨"scraping", 1, (speedSelection req.speed_mode).2,
            "Scraping 1 of " ++ toString (speedSelection req.speed_mode).2 ++ "..."⟩)) [])
      p hp hbad' hnp
      ⟨script, td, snap, by simpa [runHandler, hitem, hfb] using hcall⟩
    simpa [runHandler, hitem, hfb] using this

/-- Witness for C7: a concrete run whose predictor resolves with
`data_points = 0` ends in the "no data available" domain failure. -/
theorem claim7_no_data_domain_failure_witness :
    noDataWorld.predictResult = .ok ⟨.jnull, .jnum 0, .jnum 14, .jnull, .jnull, .jnull⟩
    ∧ Event.predictCall "simple_price_predictor.py" "14" predictingProgress
        ∈ (runHandler noDataWorld baseReq 3 Store.empty emptyFS).events
    ∧ (runHandler noDataWorld baseReq 3 Store.empty emptyFS).response
        = ⟨200, .errBody noDataMsg⟩ :=
  ⟨rfl, by decide,
    claim7_no_data_domain_failure noDataWorld baseReq 3 Store.empty emptyFS
      ⟨.jnull, .jnum 0, .jnum 14, .jnull, .jnull, .jnull⟩
      "simple_price_predictor.py" "14" predictingProgress rfl
      (Or.inl rfl) (by decide)⟩

/-- C1 (counterexample): when the weighted CSV is missing at
prediction time, the handler returns early with the "CSV file not
found" body and skips both the artifact sweep and the Run-record
deletion — the record is left behind in the `predicting` state.  This
refutes "no return path of the handler skips artifact cleanup or
Run-record deletion". -/
theorem claim1_cleanup_counterexample :
    (runHandler noCsvWorld baseReq 0 Store.empty emptyFS).response = csvNotFoundResponse
    ∧ Event.artifactSweep ∉ (runHandler noCsvWorld baseReq 0 Store.empty emptyFS).events
    ∧ Event.recordDeleted "run_0" ∉ (runHandler noCsvWorld baseReq 0 Store.empty emptyFS).events
    ∧ (runHandler noCsvWorld baseReq 0 Store.empty emptyFS).store "run_0"
        = some predictingProgress := by decide

/-- C1 (amended): on every exit path after validation except the
missing-CSV early return, cleanup runs exactly once before the call
returns, in the order: compute the result or error, then delete the
Run record, then sweep the transient artifacts; and failures inside
the sweep are swallowed, never changing the response. -/
theorem claim1_cleanup_amended (w : World) (req : Request) (now : Nat)
    (store : Store) (fs : FS)
    (hitem : strFalsy req.item = false)
    (hresp : (runHandler w req now store fs).response ≠ csvNotFoundResponse) :
    (∃ pre, (runHandler w req now store fs).events
        = pre ++ [.recordDeleted ("run_" ++ toString now), .artifactSweep]
      ∧ ∀ e ∈ pre, e.isCleanup = false)
    ∧ ∀ (u r : String → Bool) (a b : Bool),
        (runHandler (w.withCleanup u r a b) req now store fs).response
          = (runHandler w req now store fs).response :=
  ⟨runHandler_events_shape w req now store fs hitem hresp,
   fun u r a b => runHandler_cleanup_response w u r a b req now store fs⟩

/-- Witness for C1 (amended) at a concrete successful run. -/
theorem claim1_cleanup_amended_witness :
    strFalsy baseReq.item = false
    ∧ (runHandler okWorld baseReq 0 Store.empty emptyFS).response ≠ csvNotFoundResponse
    ∧ ((∃ pre, (runHandler okWorld baseReq 0 Store.empty emptyFS).events
          = pre ++ [.recordDeleted ("run_" ++ toString 0), .artifactSweep]
        ∧ ∀ e ∈ pre, e.isCleanup = false)
      ∧ ∀ (u r : String → Bool) (a b : Bool),
          (runHandler (okWorld.withCleanup u r a b) baseReq 0 Store.empty emptyFS).response
            = (runHandler okWorld baseReq 0 Store.empty emptyFS).response) :=
  ⟨rfl, by decide,
    claim1_cleanup_amended okWorld baseReq 0 Store.empty emptyFS rfl (by decide)⟩

/-- C2 (failing input evaluated): `start_run` at time 0 returns
`run_0` and records the starting snapshot under it; `execute` invoked
at time 1 runs under its own fresh identifier `run_1` (the body's
`run_id` is never read), completes successfully and deletes only
`run_1` — so a progress query for `run_0` still observes the
`starting` snapshot, not the completed sentinel, after the run has
finished. -/
theorem claim2_start_run_record_leak :
    (startRun 0 Store.empty).1 = "run_0"
    ∧ (runHandler okWorld baseReq 1 (startRun 0 Store.empty).2 emptyFS).response.status = 200
    ∧ (runHandler okWorld baseReq 1 (startRun 0 Store.empty).2 emptyFS).store "run_1" = none
    ∧ getProgress (runHandler okWorld baseReq 1 (startRun 0 Store.empty).2 emptyFS).store
        "run_0" = .snapshot startingProgress
    ∧ getProgress (runHandler okWorld baseReq 1 (startRun 0 Store.empty).2 emptyFS).store
        "run_0" ≠ .completedSentinel := by decide

/-- C5 (counterexample): a successful run's cleanup deletes another
run's processed directory and a pre-existing raw file — transient
artifacts belonging to other runs are not left unchanged. -/
theorem claim5_cleanup_counterexample :
    "run_99" ∈ otherRunFS.processedDirs
    ∧ (runHandler okWorld baseReq 0 Store.empty otherRunFS).response.status = 200
    ∧ "run_99" ∉ (runHandler okWorld baseReq 0 Store.empty otherRunFS).fs.processedDirs
    ∧ "stale.html" ∉ (runHandler okWorld baseReq 0 Store.empty otherRunFS).fs.rawFiles := by
  decide

/-- C5 (amended): cleanup is a directory-wide sweep — on every path
that reaches it (all exit paths after validation except the
missing-CSV early return), and with no deletion failures, it removes
every raw `.html` file and every `run_`-prefixed processed directory,
across all runs, not just the finishing run's artifacts. -/
theorem claim5_cleanup_sweep_amended (w : World) (req : Request) (now : Nat)
    (store : Store) (fs : FS)
    (hitem : strFalsy req.item = false)
    (hresp : (runHandler w req now store fs).response ≠ csvNotFoundResponse)
    (ha : w.readRawFails = false) (hb : w.readProcessedFails = false)
    (hu : ∀ f, w.unlinkFails f = false) (hr : ∀ dd, w.rmFails dd = false) :
    (∀ f ∈ (runHandler w req now store fs).fs.rawFiles, strEndsWith f ".html" = false)
    ∧ ∀ dd ∈ (runHandler w req now store fs).fs.processedDirs,
        strStartsWith dd "run_" = false := by
  have hfs := runHandler_fs w req now store fs hitem hresp
  rw [hfs]
  constructor
  · intro f hf
    simp only [cleanupSweep, ha, hb, Bool.false_eq_true, if_false] at hf
    obtain ⟨_, hpf⟩ := List.mem_filter.mp hf
    rw [hu f] at hpf
    simpa using hpf
  · intro dd hdd
    simp only [cleanupSweep, ha, hb, Bool.false_eq_true, if_false] at hdd
    obtain ⟨_, hpd⟩ := List.mem_filter.mp hdd
    rw [hr dd] at hpd
    simpa using hpd

/-- Witness for C5 (amended) at a concrete run over a populated
artifact area. -/
theorem claim5_cleanup_sweep_amended_witness :
    strFalsy baseReq.item = false
    ∧ (runHandler okWorld baseReq 0 Store.empty otherRunFS).response ≠ csvNotFoundResponse
    ∧ ((∀ f ∈ (runHandler okWorld baseReq 0 Store.empty otherRunFS).fs.rawFiles,
          strEndsWith f ".html" = false)
      ∧ ∀ dd ∈ (runHandler okWorld baseReq 0 Store.empty otherRunFS).fs.processedDirs,
          strStartsWith dd "run_" = false) :=
  ⟨rfl, by decide,
    claim5_cleanup_sweep_amended okWorld baseReq 0 Store.empty otherRunFS rfl
      (by decide) rfl rfl (fun _ => rfl) (fun _ => rfl)⟩

/-- C9 (counterexample): a request missing both `target_days` and
`speed_mode` is not rejected — the run directory is created, the
pipeline runs all five collector calls (default speed), the predictor
is invoked with the string `"undefined"` as the horizon, and the
response is a success, with no validation error. -/
theorem claim9_validation_counterexample :
    missingOptionsReq.target_days = none
    ∧ missingOptionsReq.speed_mode = none
    ∧ (runHandler okWorld missingOptionsReq 0 Store.empty emptyFS).response.status = 200
    ∧ Event.mkRunDirEv "run_0"
        ∈ (runHandler okWorld missingOptionsReq 0 Store.empty emptyFS).events
    ∧ Event.scrapeCall "3" ⟨"scraping", 1, 5, "Scraping 1 of 5..."⟩
        ∈ (runHandler okWorld missingOptionsReq 0 Store.empty emptyFS).events
    ∧ Event.predictCall "simple_price_predictor.py" "undefined" predictingProgress
        ∈ (runHandler okWorld missingOptionsReq 0 Store.empty emptyFS).events := by
  decide

/-- C9 (amended): only `item` is validated.  A request with a missing
(or empty) `item` is rejected with a 400 validation error before any
pipeline stage starts and before any transient artifact is created;
missing `target_days` or `speed_mode` is not rejected — `speed_mode`
falls back to the `normal` prefix and `target_days` is forwarded to
the predictor as the string image of `undefined`. -/
theorem claim9_item_validation_amended (w : World) (req : Request) (now : Nat)
    (store : Store) (fs : FS) (hitem : strFalsy req.item = true) :
    runHandler w req now store fs
      = { response := ⟨400, .errBody "Item is required"⟩,
          store := store, fs := fs, events := [] } := by
  simp [runHandler, hitem]

/-- Witness for C9 (amended): a concrete request without `item` is
rejected untouched. -/
theorem claim9_item_validation_amended_witness :
    strFalsy noItemReq.item = true
    ∧ runHandler okWorld noItemReq 5 Store.empty emptyFS
        = { response := ⟨400, .errBody "Item is required"⟩,
            store := Store.empty, fs := emptyFS, events := [] } :=
  ⟨rfl, claim9_item_validation_amended okWorld noItemReq 5 Store.empty emptyFS rfl⟩

/-- C6 (counterexample): with the AI weighting strategy selected and
the external scoring credential absent, the run does not fail before
the weighting stage: the weighting stage is entered (the `weighting`
snapshot is observable during the scoring call) and the failure
surfaces afterwards as a generic 500 error. -/
theorem claim6_credential_counterexample :
    noCredWorld.credentialPresent = false
    ∧ Event.weightCall "ai"
        ⟨"weighting", 1, 1, "Applying AI weighting (this may take a while)..."⟩
      ∈ (runHandler noCredWorld aiReq 0 Store.empty emptyFS).events
    ∧ (runHandler noCredWorld aiReq 0 Store.empty emptyFS).response
        = ⟨500, .errBody "external scoring credential absent"⟩ := by
  decide

/-- C6 (amended): with a non-heuristic weighting method selected and
the external scoring credential absent, the run does not fail fast:
the weighting stage is entered — the `weighting` snapshot is stored
and the external scoring call is issued — the call is rejected for
the missing credential, and the run then fails through the generic
catch path (record deleted, artifacts swept, 500 returned). -/
theorem claim6_credential_fail_during_call (w : World) (req : Request) (now : Nat)
    (store : Store) (fs : FS) (mo : MergeData)
    (hitem : strFalsy req.item = false)
    (hwm : req.weighting_method ≠ some "heuristic")
    (hcred : w.credentialPresent = false)
    (hok : ∀ j, j < (speedSelection req.speed_mode).1.length → ∃ d, w.scrape j = .ok d)
    (hmo : w.mergeResult = .ok mo) :
    Event.weightCall "ai"
        ⟨"weighting", 1, 1, "Applying AI weighting (this may take a while)..."⟩
      ∈ (runHandler w req now store fs).events
    ∧ (runHandler w req now store fs).response
        = ⟨500, .errBody "external scoring credential absent"⟩
    ∧ Event.recordDeleted ("run_" ++ toString now)
        ∈ (runHandler w req now store fs).events := by
  have hfb : (scraperMode == "facebook" || scraperMode == "ebay") = false := by decide
  have hok0 : ∀ j, j < (speedSelection req.speed_mode).1.length →
      ∃ d, w.scrape (0 + j) = .ok d := by
    intro j hj
    simpa using hok j hj
  obtain ⟨store', evs, csvs', heq, _⟩ := scrapeLoop_ok w ("run_" ++ toString now)
    (speedSelection req.speed_mode).2 (speedSelection req.speed_mode).1 0
    (((store.set ("run_" ++ toString now) ⟨"scraping", 0, 5, "Starting scrape..."⟩).set
      ("run_" ++ toString now)
      ⟨"scraping", 1, (speedSelection req.speed_mode).2,
        "Scraping 1 of " ++ toString (speedSelection req.speed_mode).2 ++ "..."⟩)) [] hok0
  obtain ⟨st2, evs2, comb, hmp⟩ := mergePhase_ok w req.speed_mode
    ("run_" ++ toString now) store' csvs' mo hmo
  have hwp := weightPhase_ai_no_credential w req.weighting_method
    ("run_" ++ toString now) st2 hwm hcred
  have e1 : runHandler w req now store fs
      = afterScrape w req ("run_" ++ toString now)
          (fs.mkRunDir ("run_" ++ toString now)) (store', evs, .ok csvs') := by
    simp only [runHandler, hitem, hfb, Bool.false_eq_true, if_false]
    rw [heq]
  have e2 : afterScrape w req ("run_" ++ toString now)
        (fs.mkRunDir ("run_" ++ toString now)) (store', evs, .ok csvs')
      = afterMerge w req ("run_" ++ toString now)
          (fs.mkRunDir ("run_" ++ toString now))
          (Event.mkRunDirEv ("run_" ++ toString now) :: evs)
          (st2, evs2, .ok comb) := by
    simp only [afterScrape]
    rw [hmp]
  have e3 : afterMerge w req ("run_" ++ toString now)
        (fs.mkRunDir ("run_" ++ toString now))
        (Event.mkRunDirEv ("run_" ++ toString now) :: evs) (st2, evs2, .ok comb)
      = afterWeight w req ("run_" ++ toString now)
          (fs.mkRunDir ("run_" ++ toString now))
          ((Event.mkRunDirEv ("run_" ++ toString now) :: evs) ++ evs2) comb
          (weightPhase w req.weighting_method ("run_" ++ toString now) st2) := by
    simp only [afterMerge]
  have e4 : afterWeight w req ("run_" ++ toString now)
        (fs.mkRunDir ("run_" ++ toString now))
        ((Event.mkRunDirEv ("run_" ++ toString now) :: evs) ++ evs2) comb
        (weightPhase w req.weighting_method ("run_" ++ toString now) st2)
      = catchPath w ("run_" ++ toString now)
          (st2.set ("run_" ++ toString now)
            ⟨"weighting", 1, 1, "Applying AI weighting (this may take a while)..."⟩)
          (fs.mkRunDir ("run_" ++ toString now))
          (((Event.mkRunDirEv ("run_" ++ toString now) :: evs) ++ evs2)
            ++ [.weightCall "ai"
              ⟨"weighting", 1, 1, "Applying AI weighting (this may take a while)..."⟩])
          "external scoring credential absent" := by
    rw [hwp]
    rfl
  rw [e1, e2, e3, e4]
  refine ⟨?_, rfl, ?_⟩
  · simp [catchPath]
  · simp [catchPath]

/-- Witness for C6 (amended) at a concrete credential-less AI run. -/
theorem claim6_credential_fail_during_call_witness :
    strFalsy aiReq.item = false
    ∧ aiReq.weighting_method ≠ some "heuristic"
    ∧ noCredWorld.credentialPresent = false
    ∧ (Event.weightCall "ai"
          ⟨"weighting", 1, 1, "Applying AI weighting (this may take a while)..."⟩
        ∈ (runHandler noCredWorld aiReq 2 Store.empty emptyFS).events
      ∧ (runHandler noCredWorld aiReq 2 Store.empty emptyFS).response
          = ⟨500, .errBody "external scoring credential absent"⟩
      ∧ Event.recordDeleted ("run_" ++ toString 2)
          ∈ (runHandler noCredWorld aiReq 2 Store.empty emptyFS).events) :=
  ⟨rfl, by decide, rfl,
    claim6_credential_fail_during_call noCredWorld aiReq 2 Store.empty emptyFS
      ⟨some "processed/run_1/merged.csv"⟩ rfl (by decide) rfl
      (fun _ _ => ⟨_, rfl⟩) rfl⟩

/-- C4 (counterexample): "behaviorally identical to merging that
single dataset with itself" fails when the sole raw dataset contains
duplicate listing identifiers — the spec's Merger deduplicates them,
while the skip path keeps the dataset verbatim. -/
theorem claim4_merge_self_counterexample :
    mergeDatasets [[⟨"a", "t", 1⟩, ⟨"a", "t", 1⟩]]
      ≠ [(⟨"a", "t", 1⟩ : Listing), ⟨"a", "t", 1⟩] := by decide

/-- C4 (amended): an ultra-fast run whose single collector call
produced a dataset never invokes the merger (no merge event in the
whole trace), and uses that sole dataset reference directly as the
merged dataset; this equals the spec-modelled merge of the single
dataset exactly when the dataset has no duplicate identifiers. -/
theorem claim4_ultra_fast_skips_merger (w : World) (req : Request) (now : Nat)
    (store : Store) (fs : FS) (d : ScrapeData) (src : String)
    (hitem : strFalsy req.item = false)
    (hmode : req.speed_mode = some "ultra_fast")
    (hscrape : w.scrape 0 = .ok d)
    (hcsv : d.csv_path = some src) :
    (∀ e ∈ (runHandler w req now store fs).events, e.isMerge = false)
    ∧ (∀ (runId : String) (st : Store) (c : String),
        mergePhase w (some "ultra_fast") runId st [c]
          = (st.set runId ⟨"merging", 1, 1, "Using single CSV file (ultra fast mode)..."⟩,
              [], .ok (some c)))
    ∧ ∀ D : List Listing, (D.map Listing.id).Nodup → mergeDatasets [D] = D := by
  refine ⟨?_, fun runId st c => mergePhase_skip w runId st c,
    fun D h => mergeDatasets_single D h⟩
  have hfb : (scraperMode == "facebook" || scraperMode == "ebay") = false := by decide
  have hsp : speedSelection req.speed_mode = (["3"], 1) := by
    simp [speedSelection, hmode, sortOptions]
  have hsl : ∀ st0 : Store,
      scrapeLoop w ("run_" ++ toString now) 1 ["3"] 0 st0 []
        = (st0.set ("run_" ++ toString now) (scrapingProgress 0 1),
           [.scrapeCall "3" (scrapingProgress 0 1)],
           .ok (collectCsv w ("run_" ++ toString now) 0 [] d)) := by
    intro st0
    simp [scrapeLoop, hscrape]
  obtain ⟨c0, hc0⟩ : ∃ c0, collectCsv w ("run_" ++ toString now) 0 [] d = [c0] := by
    cases hrn : w.renameOk 0 with
    | false => exact ⟨src, by simp [collectCsv, hcsv, hrn]⟩
    | true =>
      exact ⟨runDirOf ("run_" ++ toString now) ++ "/" ++ basename src,
        by simp [collectCsv, hcsv, hrn]⟩
  intro e he
  simp only [runHandler, hitem, hfb, Bool.false_eq_true, if_false] at he
  rw [hsp] at he
  rw [hsl] at he
  rw [hc0] at he
  have e2 : afterScrape w req ("run_" ++ toString now)
        (fs.mkRunDir ("run_" ++ toString now))
        ((((store.set ("run_" ++ toString now)
            ⟨"scraping", 0, 5, "Starting scrape..."⟩).set
          ("run_" ++ toString now)
          ⟨"scraping", 1, (["3"], 1).2,
            "Scraping 1 of " ++ toString ((["3"], 1) : List String × Nat).2 ++ "..."⟩).set
          ("run_" ++ toString now) (scrapingProgress 0 1)),
         [.scrapeCall "3" (scrapingProgress 0 1)], .ok [c0])
      = afterMerge w req ("run_" ++ toString now)
          (fs.mkRunDir ("run_" ++ toString now))
          (Event.mkRunDirEv ("run_" ++ toString now)
            :: [.scrapeCall "3" (scrapingProgress 0 1)])
          (mergePhase w req.speed_mode ("run_" ++ toString now)
            (((store.set ("run_" ++ toString now)
                ⟨"scraping", 0, 5, "Starting scrape..."⟩).set
              ("run_" ++ toString now)
              ⟨"scraping", 1, (["3"], 1).2,
                "Scraping 1 of " ++ toString ((["3"], 1) : List String × Nat).2 ++ "..."⟩).set
              ("run_" ++ toString now) (scrapingProgress 0 1)) [c0]) := by
    simp only [afterScrape]
  rw [e2, hmode, mergePhase_skip] at he
  obtain ⟨tail, htail, hmem⟩ := afterMerge_events_append w req ("run_" ++ toString now)
    (fs.mkRunDir ("run_" ++ toString now))
    (Event.mkRunDirEv ("run_" ++ toString now)
      :: [.scrapeCall "3" (scrapingProgress 0 1)])
    ((((store.set ("run_" ++ toString now)
        ⟨"scraping", 0, 5, "Starting scrape..."⟩).set
      ("run_" ++ toString now)
      ⟨"scraping", 1, (["3"], 1).2,
        "Scraping 1 of " ++ toString ((["3"], 1) : List String × Nat).2 ++ "..."⟩).set
      ("run_" ++ toString now) (scrapingProgress 0 1)).set
      ("run_" ++ toString now)
      ⟨"merging", 1, 1, "Using single CSV file (ultra fast mode)..."⟩,
     [], .ok (some c0))
  rw [htail] at he
  rcases List.mem_append.mp he with h | h
  · rcases List.mem_append.mp h with h | h
    · rcases List.mem_cons.mp h with rfl | h
      · rfl
      · rcases List.mem_singleton.mp h with rfl
        rfl
    · cases h
  · exact (hmem e h).2

/-- Witness for C4 (amended) at a concrete ultra-fast run. -/
theorem claim4_ultra_fast_skips_merger_witness :
    strFalsy baseReq.item = false
    ∧ baseReq.speed_mode = some "ultra_fast"
    ∧ okWorld.scrape 0
        = .ok ⟨some "http://example/query", some "shot.png", some "raw/s0.csv"⟩
    ∧ ((∀ e ∈ (runHandler okWorld baseReq 4 Store.empty emptyFS).events,
          e.isMerge = false)
      ∧ (∀ (runId : String) (st : Store) (c : String),
          mergePhase okWorld (some "ultra_fast") runId st [c]
            = (st.set runId
                ⟨"merging", 1, 1, "Using single CSV file (ultra fast mode)..."⟩,
               [], .ok (some c)))
      ∧ ∀ D : List Listing, (D.map Listing.id).Nodup → mergeDatasets [D] = D) :=
  ⟨rfl, rfl, rfl,
    claim4_ultra_fast_skips_merger okWorld baseReq 4 Store.empty emptyFS
      ⟨some "http://example/query", some "shot.png", some "raw/s0.csv"⟩
      "raw/s0.csv" rfl rfl rfl rfl⟩
